/-
Verification of the resume-scoring pipeline of the Zelosify recruiting backend.

The development shallowly embeds, over `List Char` / `String` / `ℚ`:
  * the skill canonicalization layer and alias table
    (src/Backend-Recruit-Test/Server/src/services/resume/FeatureExtractorService.ts),
  * the deterministic scoring engine
    (src/Backend-Recruit-Test/Server/src/services/scoring/ScoringService.ts),
  * the experience / education extraction rules of the feature extractor,
  * the resume parser dispatch (ResumeParserService),
  * the orchestrating controller and its persistence contract
    (src/Backend-Recruit-Test/Server/src/controllers/hiring/submitHiringProfile.ts
     and the Prisma migrations).

JavaScript numbers are modelled as exact rationals; all scores are rounded to
four decimal places by the source itself, which the `round4` function mirrors
with JavaScript `Math.round` semantics (round half toward positive infinity).
-/
import Mathlib

namespace Zelosify

/-! ### JavaScript string primitives

The source manipulates strings with `toLowerCase`, `trim`, `split(/\s+/)`,
`replace(/\s+/g, "")` and friends.  We model them over `List Char`,
restricted to the ASCII behaviour (all table keys and pattern literals in the
source are ASCII). -/

/-- JavaScript whitespace (`\s`, `trim`), restricted to ASCII. -/
def jsIsSpace (c : Char) : Bool :=
  c = ' ' || c = '\t' || c = '\n' || c = '\r' || c = '\x0b' || c = '\x0c'

/-- `String.prototype.toLowerCase` (ASCII). -/
def jsToLower (s : String) : String := String.mk (s.data.map Char.toLower)

/-- `trim` on a character list: drop leading and trailing whitespace. -/
def trimChars (cs : List Char) : List Char :=
  ((cs.dropWhile jsIsSpace).reverse.dropWhile jsIsSpace).reverse

/-- `String.prototype.trim`. -/
def jsTrim (s : String) : String := String.mk (trimChars s.data)

/-- `replace(/\s+/g, "")`: remove every whitespace character. -/
def stripAllWs (s : String) : String := String.mk (s.data.filter (fun c => !jsIsSpace c))

def wsWordsAux : List Char → List Char → List (List Char)
  | [], acc => if acc.isEmpty then [] else [acc.reverse]
  | c :: cs, acc =>
    if jsIsSpace c then
      if acc.isEmpty then wsWordsAux cs [] else acc.reverse :: wsWordsAux cs []
    else wsWordsAux cs (c :: acc)

/-- Split a character list into its maximal non-whitespace runs
(`trim().split(/\s+/)` on a trimmed string). -/
def wsWords (cs : List Char) : List (List Char) := wsWordsAux cs []

/-- `w.charAt(0).toUpperCase() + w.slice(1).toLowerCase()`. -/
def titleCaseWord : List Char → List Char
  | [] => []
  | c :: cs => Char.toUpper c :: cs.map Char.toLower

/-- `skill.trim().split(/\s+/).map(titleCaseWord).join(" ")` —
the fall-back rendering of `canonicalizeSkill`. -/
def titleCase (s : String) : String :=
  String.mk (List.intercalate [' '] ((wsWords (trimChars s.data)).map titleCaseWord))

def SKILL_ALIAS_MAP : List (String × String) := [
  ("javascript", "JavaScript"),
  ("js", "JavaScript"),
  ("ecmascript", "JavaScript"),
  ("es6", "JavaScript"),
  ("es2015", "JavaScript"),
  ("es2020", "JavaScript"),
  ("vanilla js", "JavaScript"),
  ("vanilla javascript", "JavaScript"),
  ("typescript", "TypeScript"),
  ("ts", "TypeScript"),
  ("react", "React"),
  ("reactjs", "React"),
  ("react.js", "React"),
  ("react js", "React"),
  ("redux", "Redux"),
  ("react-redux", "Redux"),
  ("redux toolkit", "Redux"),
  ("rtk", "Redux"),
  ("next.js", "Next.js"),
  ("nextjs", "Next.js"),
  ("next", "Next.js"),
  ("next js", "Next.js"),
  ("vue", "Vue"),
  ("vuejs", "Vue"),
  ("vue.js", "Vue"),
  ("vue js", "Vue"),
  ("nuxt.js", "Nuxt.js"),
  ("nuxtjs", "Nuxt.js"),
  ("nuxt", "Nuxt.js"),
  ("angular", "Angular"),
  ("angularjs", "Angular"),
  ("angular.js", "Angular"),
  ("angular js", "Angular"),
  ("svelte", "Svelte"),
  ("sveltekit", "Svelte"),
  ("gatsby", "Gatsby"),
  ("gatsbyjs", "Gatsby"),
  ("remix", "Remix"),
  ("astro", "Astro"),
  ("solid.js", "SolidJS"),
  ("solidjs", "SolidJS"),
  ("tailwind", "Tailwind CSS"),
  ("tailwindcss", "Tailwind CSS"),
  ("tailwind css", "Tailwind CSS"),
  ("tailwind-css", "Tailwind CSS"),
  ("bootstrap", "Bootstrap"),
  ("material ui", "Material UI"),
  ("mui", "Material UI"),
  ("material-ui", "Material UI"),
  ("chakra ui", "Chakra UI"),
  ("chakra", "Chakra UI"),
  ("ant design", "Ant Design"),
  ("antd", "Ant Design"),
  ("styled-components", "Styled Components"),
  ("styled components", "Styled Components"),
  ("css", "CSS"),
  ("css3", "CSS"),
  ("sass", "SASS"),
  ("scss", "SASS"),
  ("less", "LESS"),
  ("html", "HTML"),
  ("html5", "HTML"),
  ("webpack", "Webpack"),
  ("vite", "Vite"),
  ("vitejs", "Vite"),
  ("rollup", "Rollup"),
  ("parcel", "Parcel"),
  ("esbuild", "esbuild"),
  ("turbopack", "Turbopack"),
  ("jest", "Jest"),
  ("vitest", "Vitest"),
  ("mocha", "Mocha"),
  ("chai", "Chai"),
  ("cypress", "Cypress"),
  ("playwright", "Playwright"),
  ("puppeteer", "Puppeteer"),
  ("testing library", "Testing Library"),
  ("react testing library", "Testing Library"),
  ("enzyme", "Enzyme"),
  ("selenium", "Selenium"),
  ("selenium webdriver", "Selenium"),
  ("api testing", "API Testing"),
  ("api test", "API Testing"),
  ("node.js", "Node.js"),
  ("nodejs", "Node.js"),
  ("node", "Node.js"),
  ("node js", "Node.js"),
  ("express", "Express"),
  ("express.js", "Express"),
  ("expressjs", "Express"),
  ("express js", "Express"),
  ("fastify", "Fastify"),
  ("nestjs", "NestJS"),
  ("nest.js", "NestJS"),
  ("nest", "NestJS"),
  ("koa", "Koa"),
  ("koa.js", "Koa"),
  ("hapi", "Hapi"),
  ("hapijs", "Hapi"),
  ("python", "Python"),
  ("python3", "Python"),
  ("py", "Python"),
  ("django", "Django"),
  ("flask", "Flask"),
  ("fastapi", "FastAPI"),
  ("fast api", "FastAPI"),
  ("java", "Java"),
  ("spring", "Spring"),
  ("spring boot", "Spring Boot"),
  ("springboot", "Spring Boot"),
  ("spring framework", "Spring"),
  ("kotlin", "Kotlin"),
  ("scala", "Scala"),
  (".net", ".NET"),
  ("dotnet", ".NET"),
  ("dot net", ".NET"),
  ("asp.net", "ASP.NET"),
  ("aspnet", "ASP.NET"),
  ("asp.net core", "ASP.NET Core"),
  ("aspnet core", "ASP.NET Core"),
  ("c#", "C#"),
  ("csharp", "C#"),
  ("c sharp", "C#"),
  ("c++", "C++"),
  ("cpp", "C++"),
  ("c", "C"),
  ("go", "Go"),
  ("golang", "Go"),
  ("rust", "Rust"),
  ("ruby", "Ruby"),
  ("php", "PHP"),
  ("swift", "Swift"),
  ("objective-c", "Objective-C"),
  ("objc", "Objective-C"),
  ("r", "R"),
  ("matlab", "MATLAB"),
  ("perl", "Perl"),
  ("lua", "Lua"),
  ("dart", "Dart"),
  ("elixir", "Elixir"),
  ("haskell", "Haskell"),
  ("shell", "Shell"),
  ("bash", "Shell"),
  ("zsh", "Shell"),
  ("sh", "Shell"),
  ("powershell", "PowerShell"),
  ("rails", "Ruby on Rails"),
  ("ruby on rails", "Ruby on Rails"),
  ("laravel", "Laravel"),
  ("symfony", "Symfony"),
  ("postgresql", "PostgreSQL"),
  ("postgres", "PostgreSQL"),
  ("pg", "PostgreSQL"),
  ("mysql", "MySQL"),
  ("mariadb", "MariaDB"),
  ("sqlite", "SQLite"),
  ("sql", "SQL"),
  ("structured query language", "SQL"),
  ("nosql", "NoSQL"),
  ("no-sql", "NoSQL"),
  ("mongodb", "MongoDB"),
  ("mongo", "MongoDB"),
  ("mongoose", "MongoDB"),
  ("dynamodb", "DynamoDB"),
  ("dynamo db", "DynamoDB"),
  ("dynamo", "DynamoDB"),
  ("cassandra", "Cassandra"),
  ("couchdb", "CouchDB"),
  ("redis", "Redis"),
  ("memcached", "Memcached"),
  ("elasticsearch", "Elasticsearch"),
  ("elastic search", "Elasticsearch"),
  ("elastic", "Elasticsearch"),
  ("opensearch", "OpenSearch"),
  ("neo4j", "Neo4j"),
  ("influxdb", "InfluxDB"),
  ("sql server", "SQL Server"),
  ("mssql", "SQL Server"),
  ("microsoft sql server", "SQL Server"),
  ("oracle", "Oracle"),
  ("oracle db", "Oracle"),
  ("prisma", "Prisma"),
  ("sequelize", "Sequelize"),
  ("typeorm", "TypeORM"),
  ("knex", "Knex"),
  ("drizzle", "Drizzle"),
  ("graphql", "GraphQL"),
  ("graph ql", "GraphQL"),
  ("rest", "REST"),
  ("restful", "REST"),
  ("rest api", "REST"),
  ("rest apis", "REST"),
  ("restful api", "REST"),
  ("restful apis", "REST"),
  ("grpc", "gRPC"),
  ("g-rpc", "gRPC"),
  ("websocket", "WebSocket"),
  ("websockets", "WebSocket"),
  ("socket.io", "WebSocket"),
  ("web socket", "WebSocket"),
  ("microservices", "Microservices"),
  ("micro services", "Microservices"),
  ("micro-services", "Microservices"),
  ("microservice", "Microservices"),
  ("microservice architecture", "Microservices"),
  ("serverless", "Serverless"),
  ("lambda", "AWS Lambda"),
  ("aws lambda", "AWS Lambda"),
  ("api design", "API Design"),
  ("api development", "API Design"),
  ("rest api design", "API Design"),
  ("aws", "AWS"),
  ("amazon web services", "AWS"),
  ("amazon aws", "AWS"),
  ("azure", "Azure"),
  ("microsoft azure", "Azure"),
  ("gcp", "GCP"),
  ("google cloud", "GCP"),
  ("google cloud platform", "GCP"),
  ("docker", "Docker"),
  ("containerization", "Docker"),
  ("containers", "Docker"),
  ("kubernetes", "Kubernetes"),
  ("k8s", "Kubernetes"),
  ("kube", "Kubernetes"),
  ("helm", "Helm"),
  ("terraform", "Terraform"),
  ("pulumi", "Pulumi"),
  ("ansible", "Ansible"),
  ("chef", "Chef"),
  ("puppet", "Puppet"),
  ("vagrant", "Vagrant"),
  ("ci/cd", "CI/CD"),
  ("cicd", "CI/CD"),
  ("ci cd", "CI/CD"),
  ("continuous integration", "CI/CD"),
  ("continuous deployment", "CI/CD"),
  ("continuous delivery", "CI/CD"),
  ("ci/cd pipeline", "CI/CD"),
  ("ci/cd pipelines", "CI/CD"),
  ("jenkins", "Jenkins"),
  ("github actions", "GitHub Actions"),
  ("gitlab ci", "GitLab CI"),
  ("gitlab-ci", "GitLab CI"),
  ("circleci", "CircleCI"),
  ("circle ci", "CircleCI"),
  ("travis ci", "Travis CI"),
  ("travis", "Travis CI"),
  ("argo cd", "Argo CD"),
  ("argocd", "Argo CD"),
  ("nginx", "Nginx"),
  ("apache", "Apache"),
  ("linux", "Linux"),
  ("ubuntu", "Linux"),
  ("centos", "Linux"),
  ("debian", "Linux"),
  ("redhat", "Linux"),
  ("rhel", "Linux"),
  ("cloudflare", "Cloudflare"),
  ("vercel", "Vercel"),
  ("netlify", "Netlify"),
  ("heroku", "Heroku"),
  ("digitalocean", "DigitalOcean"),
  ("machine learning", "Machine Learning"),
  ("ml", "Machine Learning"),
  ("deep learning", "Deep Learning"),
  ("dl", "Deep Learning"),
  ("neural networks", "Neural Networks"),
  ("neural network", "Neural Networks"),
  ("tensorflow", "TensorFlow"),
  ("tf", "TensorFlow"),
  ("pytorch", "PyTorch"),
  ("torch", "PyTorch"),
  ("keras", "Keras"),
  ("scikit-learn", "Scikit-Learn"),
  ("sklearn", "Scikit-Learn"),
  ("scikit learn", "Scikit-Learn"),
  ("pandas", "Pandas"),
  ("numpy", "NumPy"),
  ("scipy", "SciPy"),
  ("matplotlib", "Matplotlib"),
  ("seaborn", "Seaborn"),
  ("nlp", "NLP"),
  ("natural language processing", "NLP"),
  ("computer vision", "Computer Vision"),
  ("cv", "Computer Vision"),
  ("opencv", "OpenCV"),
  ("hugging face", "Hugging Face"),
  ("huggingface", "Hugging Face"),
  ("transformers", "Transformers"),
  ("langchain", "LangChain"),
  ("spark", "Apache Spark"),
  ("apache spark", "Apache Spark"),
  ("pyspark", "Apache Spark"),
  ("hadoop", "Hadoop"),
  ("airflow", "Airflow"),
  ("apache airflow", "Airflow"),
  ("kafka", "Kafka"),
  ("apache kafka", "Kafka"),
  ("flink", "Flink"),
  ("tableau", "Tableau"),
  ("power bi", "Power BI"),
  ("powerbi", "Power BI"),
  ("looker", "Looker"),
  ("metabase", "Metabase"),
  ("etl", "ETL"),
  ("data pipeline", "ETL"),
  ("data pipelines", "ETL"),
  ("data warehouse", "Data Warehouse"),
  ("data warehousing", "Data Warehouse"),
  ("snowflake", "Snowflake"),
  ("databricks", "Databricks"),
  ("bigquery", "BigQuery"),
  ("big query", "BigQuery"),
  ("mlops", "MLOps"),
  ("ml ops", "MLOps"),
  ("ml engineering", "MLOps"),
  ("react native", "React Native"),
  ("react-native", "React Native"),
  ("reactnative", "React Native"),
  ("flutter", "Flutter"),
  ("ionic", "Ionic"),
  ("xamarin", "Xamarin"),
  ("android", "Android"),
  ("ios", "iOS"),
  ("swiftui", "SwiftUI"),
  ("jetpack compose", "Jetpack Compose"),
  ("git", "Git"),
  ("github", "GitHub"),
  ("gitlab", "GitLab"),
  ("bitbucket", "Bitbucket"),
  ("jira", "JIRA"),
  ("confluence", "Confluence"),
  ("trello", "Trello"),
  ("asana", "Asana"),
  ("figma", "Figma"),
  ("sketch", "Sketch"),
  ("adobe xd", "Adobe XD"),
  ("agile", "Agile"),
  ("agile methodology", "Agile"),
  ("scrum", "Scrum"),
  ("scrum master", "Scrum"),
  ("kanban", "Kanban"),
  ("tdd", "TDD"),
  ("test driven development", "TDD"),
  ("test-driven development", "TDD"),
  ("bdd", "BDD"),
  ("behavior driven development", "BDD"),
  ("design patterns", "Design Patterns"),
  ("solid principles", "SOLID Principles"),
  ("solid", "SOLID Principles"),
  ("clean architecture", "Clean Architecture"),
  ("system design", "System Design"),
  ("ddd", "DDD"),
  ("domain driven design", "DDD"),
  ("domain-driven design", "DDD"),
  ("event-driven architecture", "Event-Driven Architecture"),
  ("event driven architecture", "Event-Driven Architecture"),
  ("event driven", "Event-Driven Architecture"),
  ("oauth", "OAuth"),
  ("oauth2", "OAuth"),
  ("oauth 2.0", "OAuth"),
  ("jwt", "JWT"),
  ("json web token", "JWT"),
  ("json web tokens", "JWT"),
  ("openid", "OpenID"),
  ("openid connect", "OpenID"),
  ("oidc", "OpenID"),
  ("saml", "SAML"),
  ("keycloak", "Keycloak"),
  ("iam", "IAM"),
  ("identity and access management", "IAM"),
  ("identity management", "IAM"),
  ("rbac", "RBAC"),
  ("role based access control", "RBAC"),
  ("role-based access control", "RBAC"),
  ("owasp", "OWASP"),
  ("penetration testing", "Penetration Testing"),
  ("pen testing", "Penetration Testing"),
  ("pentest", "Penetration Testing"),
  ("pentesting", "Penetration Testing"),
  ("cybersecurity", "Cybersecurity"),
  ("cyber security", "Cybersecurity"),
  ("information security", "Cybersecurity"),
  ("infosec", "Cybersecurity"),
  ("encryption", "Encryption"),
  ("ssl", "SSL/TLS"),
  ("tls", "SSL/TLS"),
  ("ssl/tls", "SSL/TLS"),
  ("https", "SSL/TLS"),
  ("firewall", "Firewall"),
  ("vpn", "VPN"),
  ("siem", "SIEM"),
  ("monitoring", "Monitoring"),
  ("observability", "Observability"),
  ("prometheus", "Prometheus"),
  ("grafana", "Grafana"),
  ("datadog", "Datadog"),
  ("new relic", "New Relic"),
  ("newrelic", "New Relic"),
  ("sentry", "Sentry"),
  ("elk stack", "ELK Stack"),
  ("elk", "ELK Stack"),
  ("opentelemetry", "OpenTelemetry"),
  ("otel", "OpenTelemetry"),
  ("blockchain", "Blockchain"),
  ("solidity", "Solidity"),
  ("web3", "Web3"),
  ("firebase", "Firebase"),
  ("supabase", "Supabase"),
  ("storybook", "Storybook"),
  ("user research", "User Research"),
  ("roadmapping", "Roadmapping"),
  ("product roadmap", "Roadmapping"),
  ("roadmap", "Roadmapping"),
  ("excel", "Excel"),
  ("microsoft excel", "Excel"),
  ("ms excel", "Excel"),
  ("spreadsheet", "Excel"),
  ("spreadsheets", "Excel"),
  ("technical writing", "Technical Writing"),
  ("tech writing", "Technical Writing"),
  ("api documentation", "API Documentation"),
  ("api docs", "API Documentation"),
  ("api doc", "API Documentation"),
  ("markdown", "Markdown"),
  ("md", "Markdown"),
  ("restful services", "REST"),
  ("restful web services", "REST"),
  ("rest services", "REST"),
  ("rest api development", "REST")
]

/-- Third fall-back of `canonicalizeSkill`: strip one trailing "s"
(`lower.endsWith("s") && SKILL_ALIAS_MAP[lower.slice(0, -1)]`), else
title-case the original input. -/
def canonicalizeSkillStage3 (skill lower : String) : String :=
  match (if lower.data.getLast? = some 's' then
      SKILL_ALIAS_MAP.lookup (String.mk lower.data.dropLast) else none) with
  | some v => v
  | none => titleCase skill

/-- Second fall-back of `canonicalizeSkill`: retry with internal whitespace
stripped (`stripped !== lower && SKILL_ALIAS_MAP[stripped]`). -/
def canonicalizeSkillStage2 (skill lower : String) : String :=
  let stripped := stripAllWs lower
  match (if stripped ≠ lower then SKILL_ALIAS_MAP.lookup stripped else none) with
  | some v => v
  | none => canonicalizeSkillStage3 skill lower

/-- `canonicalizeSkill` (FeatureExtractorService.ts 400-416): direct
lower-cased lookup, then whitespace-stripped lookup, then trailing-"s"
stripped lookup, then title-cased fall-back. -/
def canonicalizeSkill (skill : String) : String :=
  let lower := jsTrim (jsToLower skill)
  match SKILL_ALIAS_MAP.lookup lower with
  | some v => v
  | none => canonicalizeSkillStage2 skill lower

/-! ### ScoringService (ScoringService.ts)

The scoring engine is pure; JavaScript numbers are modelled as rationals.
The human-readable `reason` / `detail` strings assembled by the source are
presentation-only and are not part of the model. -/

/-- Confidence bucket returned by the scoring agent. -/
inductive Confidence where
  | HIGH
  | MEDIUM
  | LOW
deriving DecidableEq, Repr

/-- Input payload accepted by the scoring agent (`ScoringInput`). -/
structure ScoringInput where
  candidateSkills : List String
  candidateExperience : ℚ
  candidateLocation : String
  jobRequiredSkills : List String
  jobRequiredExperience : ℚ
  jobRequiredLocation : String
deriving DecidableEq

/-- Output produced by the scoring agent (`ScoringOutput`, minus the
presentation-only `reason` string). -/
structure ScoringOutput where
  skillMatchScore : ℚ
  experienceMatchScore : ℚ
  locationMatchScore : ℚ
  finalScore : ℚ
  confidence : Confidence
deriving DecidableEq

def WEIGHT_SKILL : ℚ := 0.5

def WEIGHT_EXPERIENCE : ℚ := 0.3

def WEIGHT_LOCATION : ℚ := 0.2

/-- Result of `computeSkillMatch`. -/
structure SkillMatchResult where
  score : ℚ
  matched : List String
  missing : List String
deriving DecidableEq

/-- `computeSkillMatch` (ScoringService.ts 85-110): canonicalize the candidate
skills into a set, partition the required skills into matched / missing by
canonical membership, and divide.  Empty requirement list scores 1. -/
def computeSkillMatch (candidateSkills requiredSkills : List String) : SkillMatchResult :=
  if requiredSkills.length = 0 then
    { score := 1, matched := [], missing := [] }
  else
    let candidateSet := candidateSkills.map canonicalizeSkill
    let matched := requiredSkills.filter (fun skill => candidateSet.contains (canonicalizeSkill skill))
    let missing := requiredSkills.filter (fun skill => !candidateSet.contains (canonicalizeSkill skill))
    { score := (matched.length : ℚ) / (requiredSkills.length : ℚ)
      matched := matched
      missing := missing }

/-- `computeExperienceMatch` (ScoringService.ts 117-133): ratio capped at 1;
requirement `≤ 0` scores 1 (the `detail` string is not modelled). -/
def computeExperienceMatch (candidateExperience requiredExperience : ℚ) : ℚ :=
  if requiredExperience ≤ 0 then 1
  else min (candidateExperience / requiredExperience) 1

/-- `LOCATION_ALIASES` (ScoringService.ts 138-149). -/
def LOCATION_ALIASES : List (String × String) := [
  ("bengaluru", "bangalore"), ("bangalore", "bangalore"),
  ("mumbai", "mumbai"), ("bombay", "mumbai"),
  ("delhi", "delhi"), ("new delhi", "delhi"),
  ("chennai", "chennai"), ("madras", "chennai"),
  ("kolkata", "kolkata"), ("calcutta", "kolkata"),
  ("gurugram", "gurgaon"), ("gurgaon", "gurgaon"),
  ("mysuru", "mysore"), ("mysore", "mysore"),
  ("mangaluru", "mangalore"), ("mangalore", "mangalore"),
  ("thiruvananthapuram", "trivandrum"), ("trivandrum", "trivandrum"),
  ("work from home", "remote"), ("wfh", "remote"), ("remote", "remote"), ("hybrid", "hybrid")
]

/-- Separator class of `replace(/[\s\-_]+/g, " ")` in `normLocation`. -/
def locSepChar (c : Char) : Bool := jsIsSpace c || c = '-' || c = '_'

/-- Collapse every run of `[\s\-_]` characters to a single space
(`replace(/[\s\-_]+/g, " ")`). -/
def collapseLocSep : List Char → Bool → List Char
  | [], _ => []
  | c :: cs, inRun =>
    if locSepChar c then
      if inRun then collapseLocSep cs true else ' ' :: collapseLocSep cs true
    else c :: collapseLocSep cs false

/-- `normLocation` (ScoringService.ts 151-154): trim, lower-case, collapse
separators, then resolve through `LOCATION_ALIASES` (fall back to itself). -/
def normLocation (s : String) : String :=
  let lower := String.mk (collapseLocSep (jsToLower (jsTrim s)).data false)
  (LOCATION_ALIASES.lookup lower).getD lower

/-- `computeLocationMatch` (ScoringService.ts 161-176): either side empty
(JavaScript-falsy) scores 1; otherwise normalised equality scores 1 or 0. -/
def computeLocationMatch (candidateLocation requiredLocation : String) : ℚ :=
  if requiredLocation = "" || candidateLocation = "" then 1
  else if normLocation candidateLocation = normLocation requiredLocation then 1 else 0

/-- `deriveConfidence` (ScoringService.ts 184-188). -/
def deriveConfidence (finalScore : ℚ) : Confidence :=
  if 0.75 ≤ finalScore then Confidence.HIGH
  else if 0.45 ≤ finalScore then Confidence.MEDIUM
  else Confidence.LOW

/-- JavaScript `Math.round`: round half toward positive infinity. -/
def jsRound (q : ℚ) : ℤ := ⌊q + 1 / 2⌋

/-- `Math.round(x * 10000) / 10000` — round to 4 decimal places. -/
def round4 (q : ℚ) : ℚ := (jsRound (q * 10000) : ℚ) / 10000

/-- `scoreCandidateForJob` (ScoringService.ts 201-261): the three sub-scores,
the mandatory weighted formula, 4-decimal rounding, and the confidence bucket
derived from the rounded final score. -/
def scoreCandidateForJob (input : ScoringInput) : ScoringOutput :=
  let skill := computeSkillMatch input.candidateSkills input.jobRequiredSkills
  let experience := computeExperienceMatch input.candidateExperience input.jobRequiredExperience
  let location := computeLocationMatch input.candidateLocation input.jobRequiredLocation
  let finalScore := WEIGHT_SKILL * skill.score + WEIGHT_EXPERIENCE * experience + WEIGHT_LOCATION * location
  let roundedFinal := round4 finalScore
  { skillMatchScore := round4 skill.score
    experienceMatchScore := round4 experience
    locationMatchScore := round4 location
    finalScore := roundedFinal
    confidence := deriveConfidence roundedFinal }

/-- The worked example of the specification. -/
def workedExampleInput : ScoringInput :=
  { candidateSkills := ["TypeScript", "React"]
    candidateExperience := 10
    candidateLocation := "Bangalore"
    jobRequiredSkills := ["TypeScript", "React", "AWS", "Docker"]
    jobRequiredExperience := 5
    jobRequiredLocation := "Bangalore" }

/-! ### Experience extraction (FeatureExtractorService.ts 461-518, 682-705)

The four `EXPERIENCE_PATTERNS` regexes and the `DATE_RANGE_PATTERN` are
embedded as hand-compiled matchers over `List Char`, in continuation-passing
style.  Greedy quantifiers over character classes are implemented with full
length-descending backtracking (`btDrops`), ordered alternation tries
branches left to right, and `String.match` / global `exec` leftmost semantics
are modelled by trying every start position from the left.  All pattern
literals are lower-case and text characters are lowered before comparison,
mirroring the `/i` flag. -/

/-- Case-insensitive literal: `w` is the (lower-case) pattern text. -/
def litCI (w : List Char) (cs : List Char) (k : List Char → Option α) : Option α :=
  match w with
  | [] => k cs
  | a :: w2 =>
    match cs with
    | [] => none
    | c :: cs2 => if c.toLower = a then litCI w2 cs2 k else none

/-- Try the continuation after dropping `n, n-1, …, 0` characters: the
backtracking of a greedy `cls*` quantifier. -/
def btDrops (cs : List Char) (k : List Char → Option α) : Nat → Option α
  | 0 => k cs
  | n + 1 =>
    match k (cs.drop (n + 1)) with
    | some r => some r
    | none => btDrops cs k n

/-- Greedy `cls*` with backtracking. -/
def clsStar (cls : Char → Bool) (cs : List Char) (k : List Char → Option α) : Option α :=
  btDrops cs k (cs.takeWhile cls).length

/-- Like `btDrops` but never matching the empty run (`cls+`). -/
def btDropsPos (cs : List Char) (k : List Char → Option α) : Nat → Option α
  | 0 => none
  | n + 1 =>
    match k (cs.drop (n + 1)) with
    | some r => some r
    | none => btDropsPos cs k n

/-- Greedy `cls+` with backtracking. -/
def clsPlus (cls : Char → Bool) (cs : List Char) (k : List Char → Option α) : Option α :=
  btDropsPos cs k (cs.takeWhile cls).length

/-- Exactly one class character. -/
def clsOne (cls : Char → Bool) (cs : List Char) (k : List Char → Option α) : Option α :=
  match cs with
  | [] => none
  | c :: rest => if cls c then k rest else none

/-- Greedy optional group `(?:p)?`: try `p`, fall back to skipping it. -/
def optPart (p : List Char → (List Char → Option α) → Option α)
    (cs : List Char) (k : List Char → Option α) : Option α :=
  match p cs k with
  | some r => some r
  | none => k cs

/-- Ordered alternation `(p₁|p₂|…)`. -/
def altParts (ps : List (List Char → (List Char → Option α) → Option α))
    (cs : List Char) (k : List Char → Option α) : Option α :=
  match ps with
  | [] => none
  | p :: rest =>
    match p cs k with
    | some r => some r
    | none => altParts rest cs k

/-- `[A-Za-z]`. -/
def isAlphaC (c : Char) : Bool := c.isAlpha

/-- `[\s\-]` of the first experience pattern. -/
def spaceDashC (c : Char) : Bool := jsIsSpace c || c = '-'

/-- `[:\-–—]` of the second experience pattern. -/
def expSepC (c : Char) : Bool := c = ':' || c = '-' || c = '–' || c = '—'

/-- `[\-–—to]` of the date-range pattern (a character class, so `t` and `o`
are individual members; `/i` makes them case-insensitive). -/
def dateSepC (c : Char) : Bool :=
  c = '-' || c = '–' || c = '—' || c.toLower = 't' || c.toLower = 'o'

def digitsToNat (ds : List Char) : Nat :=
  ds.foldl (fun n c => 10 * n + (c.toNat - '0'.toNat)) 0

/-- The capture `(\d+(?:\.\d+)?)` followed by `parseFloat`: greedy maximal
digit runs are exact here because no continuation of the four experience
patterns can begin with a digit or a dot. -/
def numberCapture (cs : List Char) (k : ℚ → List Char → Option α) : Option α :=
  let ds := cs.takeWhile Char.isDigit
  if ds.isEmpty then none
  else
    let rest := cs.drop ds.length
    let intPart : ℚ := (digitsToNat ds : ℚ)
    match rest with
    | '.' :: rest2 =>
      let fs := rest2.takeWhile Char.isDigit
      if fs.isEmpty then k intPart rest
      else k (intPart + (digitsToNat fs : ℚ) / (10 : ℚ) ^ fs.length) (rest2.drop fs.length)
    | _ => k intPart rest

/-- `(?:years?|yrs?)`. -/
def yearsWord (cs : List Char) (k : List Char → Option α) : Option α :=
  altParts [
    fun cs k => litCI "year".data cs (fun cs => optPart (litCI "s".data) cs k),
    fun cs k => litCI "yr".data cs (fun cs => optPart (litCI "s".data) cs k)] cs k

/-- `/(\d+(?:\.\d+)?)\+?\s*(?:years?|yrs?)[\s\-]*(?:of\s+)?(?:experience|exp|work)/i`
tried at one position. -/
def expPattern1At (cs : List Char) : Option ℚ :=
  numberCapture cs (fun v cs =>
    optPart (litCI "+".data) cs (fun cs =>
      clsStar jsIsSpace cs (fun cs =>
        yearsWord cs (fun cs =>
          clsStar spaceDashC cs (fun cs =>
            optPart (fun cs k => litCI "of".data cs (fun cs => clsPlus jsIsSpace cs k)) cs
              (fun cs =>
                altParts [litCI "experience".data, litCI "exp".data, litCI "work".data] cs
                  (fun _ => some v)))))))

/-- `/(?:total\s+)?experience\s*[:\-–—]\s*(\d+(?:\.\d+)?)\+?\s*(?:years?|yrs?)/i`
tried at one position. -/
def expPattern2At (cs : List Char) : Option ℚ :=
  optPart (fun cs k => litCI "total".data cs (fun cs => clsPlus jsIsSpace cs k)) cs (fun cs =>
    litCI "experience".data cs (fun cs =>
      clsStar jsIsSpace cs (fun cs =>
        clsOne expSepC cs (fun cs =>
          clsStar jsIsSpace cs (fun cs =>
            numberCapture cs (fun v cs =>
              optPart (litCI "+".data) cs (fun cs =>
                clsStar jsIsSpace cs (fun cs =>
                  yearsWord cs (fun _ => some v)))))))))

/-- `/(?:over|more than|approx(?:imately)?\.?\s*)\s*(\d+(?:\.\d+)?)\s*(?:years?|yrs?)/i`
tried at one position. -/
def expPattern3At (cs : List Char) : Option ℚ :=
  altParts [litCI "over".data, litCI "more than".data,
      fun cs k => litCI "approx".data cs (fun cs =>
        optPart (litCI "imately".data) cs (fun cs =>
          optPart (litCI ".".data) cs (fun cs =>
            clsStar jsIsSpace cs k)))] cs (fun cs =>
    clsStar jsIsSpace cs (fun cs =>
      numberCapture cs (fun v cs =>
        clsStar jsIsSpace cs (fun cs =>
          yearsWord cs (fun _ => some v)))))

/-- `/professional\s+experience\s+of\s+(\d+(?:\.\d+)?)\+?\s*(?:years?|yrs?)/i`
tried at one position. -/
def expPattern4At (cs : List Char) : Option ℚ :=
  litCI "professional".data cs (fun cs =>
    clsPlus jsIsSpace cs (fun cs =>
      litCI "experience".data cs (fun cs =>
        clsPlus jsIsSpace cs (fun cs =>
          litCI "of".data cs (fun cs =>
            clsPlus jsIsSpace cs (fun cs =>
              numberCapture cs (fun v cs =>
                optPart (litCI "+".data) cs (fun cs =>
                  clsStar jsIsSpace cs (fun cs =>
                    yearsWord cs (fun _ => some v))))))))))

/-- `String.prototype.match`: the leftmost position at which the pattern
matches wins. -/
def scanLeftmost (patAt : List Char → Option ℚ) : List Char → Option ℚ
  | [] => patAt []
  | c :: cs =>
    match patAt (c :: cs) with
    | some v => some v
    | none => scanLeftmost patAt cs

/-- `EXPERIENCE_PATTERNS` (FeatureExtractorService.ts 461-470), as matchers
returning the parsed first capture group of the leftmost match. -/
def EXPERIENCE_PATTERNS : List (String → Option ℚ) := [
  fun s => scanLeftmost expPattern1At s.data,
  fun s => scanLeftmost expPattern2At s.data,
  fun s => scanLeftmost expPattern3At s.data,
  fun s => scanLeftmost expPattern4At s.data]

/-- End token of a date range: a 4-digit year or one of
`present|current|now|ongoing`. -/
inductive DateEndTok where
  | year4 (y : Nat)
  | presentWord
deriving DecidableEq

/-- The four capture groups of one `DATE_RANGE_PATTERN` match. -/
structure DateRangeCapture where
  startName : Option (List Char)
  startYear : Nat
  endName : Option (List Char)
  endTok : DateEndTok
deriving DecidableEq

/-- `(?:([A-Za-z]+)\s+)?`: since `[A-Za-z]` and `\s` are disjoint classes,
the only viable non-empty parse is the maximal letter run followed by the
maximal space run; failing that the group matches empty (backtracking). -/
def optMonthGroup (cs : List Char) (k : Option (List Char) → List Char → Option α) : Option α :=
  let run := cs.takeWhile isAlphaC
  if run.isEmpty then k none cs
  else
    let rest := cs.drop run.length
    let sp := rest.takeWhile jsIsSpace
    if sp.isEmpty then k none cs
    else
      match k (some run) (rest.drop sp.length) with
      | some r => some r
      | none => k none cs

/-- `(\d{4})`: exactly four digit characters. -/
def year4Digits (cs : List Char) (k : Nat → List Char → Option α) : Option α :=
  match cs with
  | a :: b :: c :: d :: rest =>
    if a.isDigit && b.isDigit && c.isDigit && d.isDigit then
      k (digitsToNat [a, b, c, d]) rest
    else none
  | _ => none

/-- `(\d{4}|present|current|now|ongoing)` (ordered alternation). -/
def dateEndGroup (cs : List Char) (k : DateEndTok → List Char → Option α) : Option α :=
  match year4Digits cs (fun y rest => k (DateEndTok.year4 y) rest) with
  | some r => some r
  | none =>
    altParts [litCI "present".data, litCI "current".data, litCI "now".data,
      litCI "ongoing".data] cs (fun rest => k DateEndTok.presentWord rest)

/-- `DATE_RANGE_PATTERN` (FeatureExtractorService.ts 482-483) tried at one
position; on success returns the captures and the remaining text after the
match (the new `lastIndex`). -/
def dateRangeAt (cs : List Char) : Option (DateRangeCapture × List Char) :=
  optMonthGroup cs (fun startName cs =>
    year4Digits cs (fun startYear cs =>
      clsStar jsIsSpace cs (fun cs =>
        clsPlus dateSepC cs (fun cs =>
          clsStar jsIsSpace cs (fun cs =>
            optMonthGroup cs (fun endName cs =>
              dateEndGroup cs (fun endTok rest =>
                some ({ startName := startName, startYear := startYear,
                        endName := endName, endTok := endTok }, rest))))))))

/-- The global `exec` loop of `calculateExperienceFromDates`: collect every
match left to right, resuming after each match.  The pattern never matches
the empty string, so `length + 1` steps always suffice. -/
def scanDateRangesAux : Nat → List Char → List DateRangeCapture
  | 0, _ => []
  | fuel + 1, cs =>
    match dateRangeAt cs with
    | some (cap, rest) => cap :: scanDateRangesAux fuel rest
    | none =>
      match cs with
      | [] => []
      | _ :: cs2 => scanDateRangesAux fuel cs2

def scanDateRanges (cs : List Char) : List DateRangeCapture :=
  scanDateRangesAux (cs.length + 1) cs

/-- `MONTH_MAP` (FeatureExtractorService.ts 474-479). -/
def MONTH_MAP : List (String × Nat) := [
  ("jan", 0), ("january", 0), ("feb", 1), ("february", 1), ("mar", 2), ("march", 2),
  ("apr", 3), ("april", 3), ("may", 4), ("jun", 5), ("june", 5),
  ("jul", 6), ("july", 6), ("aug", 7), ("august", 7), ("sep", 8), ("september", 8),
  ("oct", 9), ("october", 9), ("nov", 10), ("november", 10), ("dec", 11), ("december", 11)]

/-- Month arithmetic of one date range (FeatureExtractorService.ts 495-510);
`new Date()` is modelled by the explicit `nowYear` / `nowMonth` (0-based)
parameters. -/
def monthsOfCapture (nowYear nowMonth : Int) (cap : DateRangeCapture) : Int :=
  let startMonth : Int := match cap.startName with
    | some w => ((MONTH_MAP.lookup (String.mk (w.map Char.toLower))).getD 0 : Nat)
    | none => 0
  let em : Int × Int := match cap.endTok with
    | DateEndTok.presentWord => (nowMonth, nowYear)
    | DateEndTok.year4 y =>
      (((match cap.endName with
        | some w => ((MONTH_MAP.lookup (String.mk (w.map Char.toLower))).getD 11 : Nat)
        | none => (11 : Nat)) : Int), (y : Int))
  (em.2 - (cap.startYear : Int)) * 12 + (em.1 - startMonth)

/-- `calculateExperienceFromDates` (FeatureExtractorService.ts 489-518): sum
the month spans of all matches, keeping only `0 < months < 600`, and round
`totalMonths / 12` to one decimal. -/
def calculateExperienceFromDates (nowYear nowMonth : Int) (text : String) : ℚ :=
  let totalMonths : Int := (scanDateRanges text.data).foldl
    (fun acc cap =>
      let months := monthsOfCapture nowYear nowMonth cap
      if 0 < months ∧ months < 600 then acc + months else acc) 0
  (jsRound ((totalMonths : ℚ) / 12 * 10) : ℚ) / 10

/-- Result of `extractExperience`. -/
structure ExperienceResult where
  years : ℚ
  matched : Bool
deriving DecidableEq

/-- The `for` loop of `extractExperience` (FeatureExtractorService.ts
687-695): first pattern whose parsed value lies in `[0, 60)` wins; a match
with an out-of-range value falls through to the next pattern. -/
def tryExperiencePatterns : List (String → Option ℚ) → String → Option ℚ
  | [], _ => none
  | p :: rest, text =>
    match p text with
    | some years => if 0 ≤ years ∧ years < 60 then some years else tryExperiencePatterns rest text
    | none => tryExperiencePatterns rest text

/-- `extractExperience` (FeatureExtractorService.ts 682-705). -/
def extractExperience (nowYear nowMonth : Int) (rawText textLower : String) : ExperienceResult :=
  match tryExperiencePatterns EXPERIENCE_PATTERNS textLower with
  | some years => { years := years, matched := true }
  | none =>
    let dateYears := calculateExperienceFromDates nowYear nowMonth rawText
    if 0 < dateYears then { years := dateYears, matched := true }
    else { years := 0, matched := false }

/-! ### Education extraction (FeatureExtractorService.ts 420-428, 737-746)

`extractEducation` only calls `pattern.test(textLower)`, so each of the seven
`EDUCATION_PATTERNS` is embedded as a Boolean matcher.  `\b` before the first
(always word) character of a match demands a non-word predecessor or the
start of the text; `\b` after the match is handled by the `wbAfterWord` /
`endOptDotWb` terminators. -/

/-- `\w`. -/
def isWordC (c : Char) : Bool := c.isAlphanum || c = '_'

/-- `\b` when the match so far ends in a word character: next char must be
non-word (or end of text). -/
def wbAfterWord (rest : List Char) : Bool :=
  match rest with
  | [] => true
  | c :: _ => !isWordC c

/-- `\b` when the match so far ends in a non-word character (a dot): next
char must be a word character. -/
def wbAfterNonWord (rest : List Char) : Bool :=
  match rest with
  | [] => false
  | c :: _ => isWordC c

/-- `\.?\b` after a word character: greedily take the dot (boundary then
needs a following word character), else backtrack to no dot (boundary after
the word character). -/
def endOptDotWb (rest : List Char) : Bool :=
  match rest with
  | '.' :: rest2 => wbAfterNonWord rest2 || wbAfterWord rest
  | _ => wbAfterWord rest

/-- Case-insensitive literal, Boolean continuation. -/
def litCIB (w : List Char) (cs : List Char) (k : List Char → Bool) : Bool :=
  match w with
  | [] => k cs
  | a :: w2 =>
    match cs with
    | [] => false
    | c :: cs2 => if c.toLower = a then litCIB w2 cs2 k else false

/-- Greedy optional group, Boolean continuation. -/
def optPartB (p : List Char → (List Char → Bool) → Bool)
    (cs : List Char) (k : List Char → Bool) : Bool :=
  p cs k || k cs

/-- Backtracking `cls+`, Boolean continuation. -/
def btDropsPosB (cs : List Char) (k : List Char → Bool) : Nat → Bool
  | 0 => false
  | n + 1 => k (cs.drop (n + 1)) || btDropsPosB cs k n

/-- Greedy `cls+` with backtracking, Boolean continuation. -/
def clsPlusB (cls : Char → Bool) (cs : List Char) (k : List Char → Bool) : Bool :=
  btDropsPosB cs k (cs.takeWhile cls).length

/-- `(?:'?s)?` of the degree patterns. -/
def optApostropheS (cs : List Char) (k : List Char → Bool) : Bool :=
  optPartB (fun cs k => optPartB (litCIB ['\x27']) cs (fun cs => litCIB "s".data cs k)) cs k

/-- `(?:\s+of\s+\w+)?` of the master / bachelor patterns. -/
def optOfWord (cs : List Char) (k : List Char → Bool) : Bool :=
  optPartB (fun cs k =>
    clsPlusB jsIsSpace cs (fun cs =>
      litCIB "of".data cs (fun cs =>
        clsPlusB jsIsSpace cs (fun cs =>
          clsPlusB isWordC cs k)))) cs k

/-- `\.?TAIL\.?\b` — the tail of a dotted degree abbreviation such as
`m\.?s\.?` after its leading letter. -/
def abbrevTailAt (tail : String) (cs : List Char) : Bool :=
  optPartB (litCIB ".".data) cs (fun cs => litCIB tail.data cs endOptDotWb)

/-- `(ph\.?d|doctorate|doctor of philosophy)\b` at one position. -/
def eduPhdAt (cs : List Char) : Bool :=
  (litCIB "ph".data cs (fun cs =>
    optPartB (litCIB ".".data) cs (fun cs => litCIB "d".data cs wbAfterWord))) ||
  litCIB "doctorate".data cs wbAfterWord ||
  litCIB "doctor of philosophy".data cs wbAfterWord

/-- `(m\.?b\.?a)\b` at one position. -/
def eduMbaAt (cs : List Char) : Bool :=
  litCIB "m".data cs (fun cs =>
    optPartB (litCIB ".".data) cs (fun cs =>
      litCIB "b".data cs (fun cs =>
        optPartB (litCIB ".".data) cs (fun cs =>
          litCIB "a".data cs wbAfterWord))))

/-- `(master(?:'?s)?(?:\s+of\s+\w+)?|m\.?s\.?|m\.?sc\.?|m\.?eng\.?|m\.?tech\.?|m\.?a\.?)\b`
at one position. -/
def eduMasterAt (cs : List Char) : Bool :=
  (litCIB "master".data cs (fun cs => optApostropheS cs (fun cs => optOfWord cs wbAfterWord))) ||
  litCIB "m".data cs (abbrevTailAt "s") ||
  litCIB "m".data cs (abbrevTailAt "sc") ||
  litCIB "m".data cs (abbrevTailAt "eng") ||
  litCIB "m".data cs (abbrevTailAt "tech") ||
  litCIB "m".data cs (abbrevTailAt "a")

/-- `(bachelor(?:'?s)?(?:\s+of\s+\w+)?|b\.?s\.?|b\.?sc\.?|b\.?eng\.?|b\.?tech\.?|b\.?a\.?|b\.?e\.?)\b`
at one position. -/
def eduBachelorAt (cs : List Char) : Bool :=
  (litCIB "bachelor".data cs (fun cs => optApostropheS cs (fun cs => optOfWord cs wbAfterWord))) ||
  litCIB "b".data cs (abbrevTailAt "s") ||
  litCIB "b".data cs (abbrevTailAt "sc") ||
  litCIB "b".data cs (abbrevTailAt "eng") ||
  litCIB "b".data cs (abbrevTailAt "tech") ||
  litCIB "b".data cs (abbrevTailAt "a") ||
  litCIB "b".data cs (abbrevTailAt "e")

/-- `(associate(?:'?s)?(?:\s+degree)?)\b` at one position. -/
def eduAssociateAt (cs : List Char) : Bool :=
  litCIB "associate".data cs (fun cs =>
    optApostropheS cs (fun cs =>
      optPartB (fun cs k => clsPlusB jsIsSpace cs (fun cs => litCIB "degree".data cs k)) cs
        wbAfterWord))

/-- `(diploma|certification|certificate)\b` at one position. -/
def eduDiplomaAt (cs : List Char) : Bool :=
  litCIB "diploma".data cs wbAfterWord ||
  litCIB "certification".data cs wbAfterWord ||
  litCIB "certificate".data cs wbAfterWord

/-- `(high school|secondary|hsc|ssc|12th|10th)\b` at one position. -/
def eduHighSchoolAt (cs : List Char) : Bool :=
  litCIB "high school".data cs wbAfterWord ||
  litCIB "secondary".data cs wbAfterWord ||
  litCIB "hsc".data cs wbAfterWord ||
  litCIB "ssc".data cs wbAfterWord ||
  litCIB "12th".data cs wbAfterWord ||
  litCIB "10th".data cs wbAfterWord

/-- `pattern.test(text)` for a pattern opening with `\b` followed by a word
character: try every position whose predecessor is non-word (or the start). -/
def scanBoundary (patAt : List Char → Bool) : Option Char → List Char → Bool
  | _, [] => false
  | prev, c :: cs =>
    ((match prev with
      | none => true
      | some p => !isWordC p) && patAt (c :: cs)) || scanBoundary patAt (some c) cs

/-- `RegExp.prototype.test` for one education pattern. -/
def eduTest (patAt : List Char → Bool) (s : String) : Bool :=
  scanBoundary patAt none s.data

/-- `EDUCATION_PATTERNS` (FeatureExtractorService.ts 420-428): ranked
pattern / label pairs, highest qualification first. -/
def EDUCATION_PATTERNS : List ((String → Bool) × String) := [
  (eduTest eduPhdAt, "PhD"),
  (eduTest eduMbaAt, "MBA"),
  (eduTest eduMasterAt, "Master\x27s"),
  (eduTest eduBachelorAt, "Bachelor\x27s"),
  (eduTest eduAssociateAt, "Associate\x27s"),
  (eduTest eduDiplomaAt, "Diploma/Certificate"),
  (eduTest eduHighSchoolAt, "High School")]

/-- Result of `extractEducation`. -/
structure EducationResult where
  level : String
  matched : Bool
deriving DecidableEq

/-- The `for` loop of `extractEducation`: first listed pattern that tests
true anywhere in the text wins. -/
def firstMatchingEducation : List ((String → Bool) × String) → String → Option String
  | [], _ => none
  | (test, label) :: rest, text =>
    if test text then some label else firstMatchingEducation rest text

/-- `extractEducation` (FeatureExtractorService.ts 737-746). -/
def extractEducation (textLower : String) : EducationResult :=
  match firstMatchingEducation EDUCATION_PATTERNS textLower with
  | some label => { level := label, matched := true }
  | none => { level := "Not specified", matched := false }

/-! ### ResumeParserService (src/unnamed/part_009)

`parseResume` dispatches on the declared MIME type.  The `pdf-parse` library
and Node's UTF-8 buffer decoding are external collaborators, modelled as
explicit function parameters; the file buffer is a byte list. -/

def PDF_MIME : String := "application/pdf"

def TXT_MIME : String := "text/plain"

/-- `ParsedResume`. -/
structure ParsedResume where
  rawText : String
  pageCount : Nat
  mimeType : String
deriving DecidableEq

/-- Failures thrown by `parseResume`: the unsupported-MIME throw and the
wrapped PDF extraction failure. -/
inductive ResumeParseError where
  | unsupportedFormat (mimeType : String)
  | parseFailure (filename msg : String)
deriving DecidableEq

/-- Result of `PDFParse.getText()`: optional text and optional page total
(the source reads `result.text?` and `result.total ?? 1`). -/
structure PdfLibResult where
  text : Option String
  total : Option Nat
deriving DecidableEq

/-- `parsePdf` (part_009 75-113), with the `pdf-parse` call abstracted as
`pdfGetText`. -/
def parsePdf (pdfGetText : List Nat → Except String PdfLibResult)
    (buffer : List Nat) (mimeType filename : String) : Except ResumeParseError ParsedResume :=
  match pdfGetText buffer with
  | Except.ok r =>
    Except.ok { rawText := (r.text.map jsTrim).getD "", pageCount := r.total.getD 1, mimeType := mimeType }
  | Except.error msg => Except.error (ResumeParseError.parseFailure filename msg)

/-- `parsePlainText` (part_009 115-131): UTF-8 decode (abstracted as
`decodeUtf8`) and trim; page count is 1. -/
def parsePlainText (decodeUtf8 : List Nat → String)
    (buffer : List Nat) (mimeType : String) : ParsedResume :=
  { rawText := jsTrim (decodeUtf8 buffer), pageCount := 1, mimeType := mimeType }

/-- `parseResume` (part_009 50-71). -/
def parseResume (pdfGetText : List Nat → Except String PdfLibResult)
    (decodeUtf8 : List Nat → String)
    (buffer : List Nat) (mimeType filename : String) : Except ResumeParseError ParsedResume :=
  if mimeType = PDF_MIME then parsePdf pdfGetText buffer mimeType filename
  else if mimeType = TXT_MIME then Except.ok (parsePlainText decodeUtf8 buffer mimeType)
  else Except.error (ResumeParseError.unsupportedFormat mimeType)

/-! ### The orchestrating controller and its persistence contract

`submitHiringProfile` (src/controllers/hiring/submitHiringProfile.ts) and the
`HiringProfile` schema (prisma/migrations).  The database is a list of
records; a Prisma interactive transaction is a state transformer whose
writes are discarded wholesale when the body throws.  The feature extractor
is passed as a parameter (its experience and education components are the
functions embedded above; the orchestration claims hold for every
extractor).  The presentation-only `reason` string, the `recommendation
LatencyMs` timing column and the `createdAt` / `updatedAt` timestamps are
not modelled. -/

/-- `ExtractedFeatures` — the fields of the extractor consumed by the
controller (the `extractionMeta` diagnostics are not consumed). -/
structure ExtractedFeatures where
  skills : List String
  experience : ℚ
  location : String
  education : String
deriving DecidableEq

/-- The columns of `JobOpening` read by the controller. -/
structure JobOpening where
  id : String
  location : String
  requiredSkills : List String
  requiredExperience : ℚ
  tenantId : String
deriving DecidableEq

/-- One `HiringProfile` row.  The score columns are nullable in the schema
(`DOUBLE PRECISION`, no `NOT NULL`) and are `null` between the `create` and
the finalizing `update`. -/
structure HiringProfileRecord where
  id : Nat
  s3Key : String
  s3Filename : String
  s3Bucket : String
  openingId : String
  candidateSkills : List String
  candidateExperience : ℚ
  candidateLocation : String
  candidateEducation : String
  rawResumeText : String
  jobRequiredSkills : List String
  jobRequiredExperience : ℚ
  jobRequiredLocation : String
  skillMatchScore : Option ℚ
  experienceMatchScore : Option ℚ
  locationMatchScore : Option ℚ
  finalScore : Option ℚ
  confidence : Option Confidence
  tenantId : String
  userId : String
deriving DecidableEq

/-- The visible database state. -/
abbrev HiringProfileDb := List HiringProfileRecord

/-- Column-wise equality of two rows, for evaluating uniqueness
constraints. -/
def columnEq (c : String) (r s : HiringProfileRecord) : Bool :=
  if c = "id" then r.id == s.id
  else if c = "s3Key" then r.s3Key == s.s3Key
  else if c = "s3Filename" then r.s3Filename == s.s3Filename
  else if c = "s3Bucket" then r.s3Bucket == s.s3Bucket
  else if c = "openingId" then r.openingId == s.openingId
  else if c = "candidateLocation" then r.candidateLocation == s.candidateLocation
  else if c = "candidateEducation" then r.candidateEducation == s.candidateEducation
  else if c = "rawResumeText" then r.rawResumeText == s.rawResumeText
  else if c = "jobRequiredLocation" then r.jobRequiredLocation == s.jobRequiredLocation
  else if c = "tenantId" then r.tenantId == s.tenantId
  else if c = "userId" then r.userId == s.userId
  else false

/-- Unique constraints declared for `HiringProfile` by the migrations
(20260215152538_add_hiring_profile and 20250721072704_init): only the
primary key on `id`.  `HiringProfile_tenantId_idx` and
`HiringProfile_userId_idx` are plain `CREATE INDEX` (non-unique), and the
`ALTER TABLE` statements only add foreign keys. -/
def hiringProfileUniqueConstraints : List (List String) := [["id"]]

/-- The idempotency key of the specification: (filename, opening, user,
tenant). -/
def idempotencyKeyColumns : List String := ["s3Filename", "openingId", "userId", "tenantId"]

/-- A `create` is accepted by the store iff no existing row coincides with
the new row on some declared unique constraint. -/
def insertAllowed (db : HiringProfileDb) (r : HiringProfileRecord) : Bool :=
  hiringProfileUniqueConstraints.all fun cols =>
    db.all fun s => !(cols.all fun c => columnEq c r s)

/-- Number of rows carrying one idempotency key. -/
def countKey (s3Filename openingId userId tenantId : String) (db : HiringProfileDb) : Nat :=
  (db.filter fun r =>
    r.s3Filename == s3Filename && r.openingId == openingId &&
    r.userId == userId && r.tenantId == tenantId).length

/-- The `findFirst` idempotency lookup of the controller (lines 76-84). -/
def findFirstProfile (s3Filename openingId userId tenantId : String)
    (db : HiringProfileDb) : Option HiringProfileRecord :=
  db.find? fun r =>
    r.s3Filename == s3Filename && r.openingId == openingId &&
    r.userId == userId && r.tenantId == tenantId

/-- The score-finalizing `update` payload (lines 244-255): the row with all
five score columns populated. -/
def finalizeRecord (r : HiringProfileRecord) (o : ScoringOutput) : HiringProfileRecord :=
  { r with skillMatchScore := some o.skillMatchScore
           experienceMatchScore := some o.experienceMatchScore
           locationMatchScore := some o.locationMatchScore
           finalScore := some o.finalScore
           confidence := some o.confidence }

/-- `tx.hiringProfile.update({where: {id}, data: score fields})`. -/
def dbUpdateScores (db : HiringProfileDb) (id : Nat) (o : ScoringOutput) : HiringProfileDb :=
  db.map fun r => if r.id == id then finalizeRecord r o else r

/-- Typed failures of the transaction body. -/
inductive SubmitError where
  | jobOpeningNotFound
  | uniqueViolation
  | injected
deriving DecidableEq

/-- An uploaded file (multer memory storage). -/
structure UploadedFile where
  originalname : String
  mimetype : String
  buffer : List Nat
deriving DecidableEq

/-- HTTP-level outcomes of the controller. -/
inductive SubmitResponse where
  | missingContext
  | missingFields
  | idempotentHit (record : HiringProfileRecord)
  | emptyExtraction
  | created (record : HiringProfileRecord)
  | openingNotFound
  | internalError
deriving DecidableEq

/-- A Prisma interactive transaction: if the body throws, every write is
rolled back — the caller observes the pre-transaction state. -/
def runTransaction (body : HiringProfileDb → Except SubmitError (HiringProfileDb × HiringProfileRecord))
    (db : HiringProfileDb) : HiringProfileDb × Except SubmitError HiringProfileRecord :=
  match body db with
  | Except.ok (db2, r) => (db2, Except.ok r)
  | Except.error e => (db, Except.error e)

/-- The `create` payload of the transaction (lines 191-208): resume
metadata, extracted features and the requirement snapshot; the five score
columns are still null. -/
def mkProfile (features : ExtractedFeatures) (opening : JobOpening)
    (tenantId userId openingId : String) (file : UploadedFile) (parsed : ParsedResume)
    (newId timestamp : Nat) : HiringProfileRecord :=
  { id := newId
    s3Key := "resumes/" ++ tenantId ++ "/" ++ openingId ++ "/" ++ toString timestamp ++ "_" ++ file.originalname
    s3Filename := file.originalname
    s3Bucket := "zelosify-recruit-test"
    openingId := openingId
    candidateSkills := features.skills
    candidateExperience := features.experience
    candidateLocation := features.location
    candidateEducation := features.education
    rawResumeText := String.mk (parsed.rawText.data.take 50000)
    jobRequiredSkills := opening.requiredSkills
    jobRequiredExperience := opening.requiredExperience
    jobRequiredLocation := opening.location
    skillMatchScore := none
    experienceMatchScore := none
    locationMatchScore := none
    finalScore := none
    confidence := none
    tenantId := tenantId
    userId := userId }

/-- The `ScoringInput` assembled by the controller (lines 218-225). -/
def mkScoringInput (features : ExtractedFeatures) (opening : JobOpening) : ScoringInput :=
  { candidateSkills := features.skills
    candidateExperience := features.experience
    candidateLocation := features.location
    jobRequiredSkills := opening.requiredSkills
    jobRequiredExperience := opening.requiredExperience
    jobRequiredLocation := opening.location }

/-- The transaction body of `submitHiringProfile` (lines 155-266): resolve
the opening (tenant-checked), extract features, `create` the profile row,
score, and `update` the row with the scores.  `injectFailure` throws between
the `create` and the finalizing `update`.  A `create` rejected by a unique
constraint is a throw (`uniqueViolation`). -/
def submitTransactionBody
    (extractFeatures : String → List String → ExtractedFeatures)
    (openings : List JobOpening)
    (tenantId userId openingId : String)
    (file : UploadedFile) (parsed : ParsedResume)
    (newId timestamp : Nat) (injectFailure : Bool)
    (db : HiringProfileDb) : Except SubmitError (HiringProfileDb × HiringProfileRecord) :=
  match openings.find? (fun o => o.id == openingId) with
  | none => Except.error SubmitError.jobOpeningNotFound
  | some opening =>
    if opening.tenantId ≠ tenantId then Except.error SubmitError.jobOpeningNotFound
    else if insertAllowed db (mkProfile (extractFeatures parsed.rawText opening.requiredSkills)
        opening tenantId userId openingId file parsed newId timestamp) then
      if injectFailure then Except.error SubmitError.injected
      else
        Except.ok
          (dbUpdateScores
            (db ++ [mkProfile (extractFeatures parsed.rawText opening.requiredSkills)
              opening tenantId userId openingId file parsed newId timestamp])
            (mkProfile (extractFeatures parsed.rawText opening.requiredSkills)
              opening tenantId userId openingId file parsed newId timestamp).id
            (scoreCandidateForJob (mkScoringInput
              (extractFeatures parsed.rawText opening.requiredSkills) opening)),
           finalizeRecord
            (mkProfile (extractFeatures parsed.rawText opening.requiredSkills)
              opening tenantId userId openingId file parsed newId timestamp)
            (scoreCandidateForJob (mkScoringInput
              (extractFeatures parsed.rawText opening.requiredSkills) opening)))
    else Except.error SubmitError.uniqueViolation

/-- The part of the controller after the idempotency check: parse the
resume, reject empty extractions, then run the transaction (lines
117-312). -/
def submitAfterCheck
    (extractFeatures : String → List String → ExtractedFeatures)
    (pdfGetText : List Nat → Except String PdfLibResult)
    (decodeUtf8 : List Nat → String)
    (openings : List JobOpening)
    (tenantId userId openingId : String) (file : UploadedFile)
    (newId timestamp : Nat) (injectFailure : Bool)
    (db : HiringProfileDb) : HiringProfileDb × SubmitResponse :=
  match parseResume pdfGetText decodeUtf8 file.buffer file.mimetype file.originalname with
  | Except.error _ => (db, SubmitResponse.internalError)
  | Except.ok parsed =>
    if parsed.rawText.length = 0 then (db, SubmitResponse.emptyExtraction)
    else
      match runTransaction
          (submitTransactionBody extractFeatures openings tenantId userId openingId
            file parsed newId timestamp injectFailure) db with
      | (db2, Except.ok record) => (db2, SubmitResponse.created record)
      | (db2, Except.error SubmitError.jobOpeningNotFound) => (db2, SubmitResponse.openingNotFound)
      | (db2, Except.error _) => (db2, SubmitResponse.internalError)

/-- `submitHiringProfile` (lines 46-313): guards, idempotency short-circuit,
then `submitAfterCheck`. -/
def submitHiringProfile
    (extractFeatures : String → List String → ExtractedFeatures)
    (pdfGetText : List Nat → Except String PdfLibResult)
    (decodeUtf8 : List Nat → String)
    (openings : List JobOpening)
    (tenantId userId : Option String) (openingId : Option String) (file : Option UploadedFile)
    (newId timestamp : Nat) (injectFailure : Bool)
    (db : HiringProfileDb) : HiringProfileDb × SubmitResponse :=
  match tenantId, userId with
  | some tId, some uId =>
    (match openingId, file with
     | some oId, some f =>
       (match findFirstProfile f.originalname oId uId tId db with
        | some existing => (db, SubmitResponse.idempotentHit existing)
        | none =>
          submitAfterCheck extractFeatures pdfGetText decodeUtf8 openings
            tId uId oId f newId timestamp injectFailure db)
     | _, _ => (db, SubmitResponse.missingFields))
  | _, _ => (db, SubmitResponse.missingContext)

/-! ### Concrete scenario inputs used by counterexamples and witnesses -/

/-- A scoring input with a negative extracted experience value. -/
def negativeExperienceInput : ScoringInput :=
  { candidateSkills := []
    candidateExperience := -1
    candidateLocation := "Pune"
    jobRequiredSkills := ["AWS"]
    jobRequiredExperience := 1
    jobRequiredLocation := "Delhi" }

/-- A feature extractor returning fixed features (the orchestration model is
parametric in the extractor). -/
def trivialExtractor : String → List String → ExtractedFeatures :=
  fun _ _ => { skills := [], experience := 0, location := "", education := "Not specified" }

/-- A PDF library oracle that always fails (unused on text/plain paths). -/
def noPdfLib : List Nat → Except String PdfLibResult :=
  fun _ => Except.error "pdf library unavailable"

/-- A UTF-8 decoder returning a fixed non-empty text. -/
def fixedDecode : List Nat → String := fun _ => "resume text"

/-- The job opening of the concurrency scenario. -/
def c2Opening : JobOpening :=
  { id := "o1", location := "", requiredSkills := [], requiredExperience := 0, tenantId := "t1" }

/-- The uploaded file of the concurrency scenario. -/
def c2File : UploadedFile :=
  { originalname := "resume.txt", mimetype := "text/plain", buffer := [] }

/-- Submission A, continuing after its idempotency check read the empty
database. -/
def c2Phase1 : HiringProfileDb × SubmitResponse :=
  submitAfterCheck trivialExtractor noPdfLib fixedDecode [c2Opening]
    "t1" "u1" "o1" c2File 1 100 false []

/-- Submission B, whose idempotency check also read the empty database
(before A committed), continuing against the state A left behind. -/
def c2Phase2 : HiringProfileDb × SubmitResponse :=
  submitAfterCheck trivialExtractor noPdfLib fixedDecode [c2Opening]
    "t1" "u1" "o1" c2File 2 200 false c2Phase1.1

/-- A full submission with a failure injected after the `create` and before
the finalizing `update`. -/
def c3Injected : HiringProfileDb × SubmitResponse :=
  submitHiringProfile trivialExtractor noPdfLib fixedDecode [c2Opening]
    (some "t1") (some "u1") (some "o1") (some c2File) 1 100 true []

/-! ### Helper lemmas -/

theorem dropWhile_dropWhile (p : Char → Bool) (l : List Char) :
    (l.dropWhile p).dropWhile p = l.dropWhile p := by
  induction l with
  | nil => rfl
  | cons c cs ih =>
    by_cases h : p c = true
    · simp only [List.dropWhile_cons, if_pos h]
      exact ih
    · simp only [List.dropWhile_cons, if_neg h]

theorem dropWhile_is_suffix (p : Char → Bool) (l : List Char) :
    ∃ t, l = t ++ l.dropWhile p := by
  induction l with
  | nil => exact ⟨[], rfl⟩
  | cons c cs ih =>
    by_cases h : p c = true
    · obtain ⟨t, ht⟩ := ih
      refine ⟨c :: t, ?_⟩
      simp only [List.dropWhile_cons, if_pos h, List.cons_append]
      exact congrArg (c :: ·) ht
    · exact ⟨[], by simp [List.dropWhile_cons, if_neg h]⟩

theorem head_dropWhile_not (p : Char → Bool) (l : List Char) (c : Char) (cs : List Char)
    (h : l.dropWhile p = c :: cs) : p c = false := by
  induction l with
  | nil => simp at h
  | cons a l2 ih =>
    by_cases ha : p a = true
    · rw [List.dropWhile_cons, if_pos ha] at h
      exact ih h
    · rw [List.dropWhile_cons, if_neg ha] at h
      cases h
      simpa using ha

theorem trimChars_idempotent (cs : List Char) :
    trimChars (trimChars cs) = trimChars cs := by
  unfold trimChars
  obtain ⟨t, ht⟩ := dropWhile_is_suffix jsIsSpace (cs.dropWhile jsIsSpace).reverse
  set a := cs.dropWhile jsIsSpace with ha
  set b := a.reverse.dropWhile jsIsSpace with hb
  have hpre : a = b.reverse ++ t.reverse := by
    have h2 := congrArg List.reverse ht
    simpa using h2
  have hstep1 : b.reverse.dropWhile jsIsSpace = b.reverse := by
    cases hbr : b.reverse with
    | nil => rfl
    | cons c rest =>
      have hc : jsIsSpace c = false := by
        apply head_dropWhile_not jsIsSpace cs c (rest ++ t.reverse)
        rw [← ha, hpre, hbr]
        simp
      rw [List.dropWhile_cons, if_neg (by simp [hc])]
  rw [hstep1, List.reverse_reverse]
  have hstep2 : b.dropWhile jsIsSpace = b := by
    rw [hb]
    exact dropWhile_dropWhile jsIsSpace a.reverse
  rw [hstep2]

/-- `jsTrim` is idempotent; hence every `rawText` built by trimming is a
fixed point of `jsTrim`. -/
theorem jsTrim_idempotent (s : String) : jsTrim (jsTrim s) = jsTrim s := by
  unfold jsTrim
  exact congrArg String.mk (trimChars_idempotent s.data)

theorem round4_nonneg (q : ℚ) (h : 0 ≤ q) : 0 ≤ round4 q := by
  unfold round4 jsRound
  apply div_nonneg _ (by norm_num)
  have : (0 : ℤ) ≤ ⌊q * 10000 + 1 / 2⌋ := Int.floor_nonneg.mpr (by linarith)
  exact_mod_cast this

theorem round4_le_one (q : ℚ) (h : q ≤ 1) : round4 q ≤ 1 := by
  unfold round4 jsRound
  rw [div_le_one (by norm_num)]
  have h1 : ⌊q * 10000 + 1 / 2⌋ ≤ ⌊(10000 : ℚ) + 1 / 2⌋ := Int.floor_le_floor (by linarith)
  have h2 : ⌊(10000 : ℚ) + 1 / 2⌋ = 10000 := by
    rw [Int.floor_eq_iff]
    norm_num
  rw [h2] at h1
  exact_mod_cast h1

theorem computeSkillMatch_score_bounds (cand req : List String) :
    0 ≤ (computeSkillMatch cand req).score ∧ (computeSkillMatch cand req).score ≤ 1 := by
  unfold computeSkillMatch
  split
  · norm_num
  · rename_i hlen
    refine ⟨div_nonneg (by positivity) (by positivity), ?_⟩
    rw [div_le_one (by exact_mod_cast Nat.pos_of_ne_zero hlen)]
    exact_mod_cast List.length_filter_le _ req

theorem computeExperienceMatch_bounds (c r : ℚ) (hc : 0 ≤ c) :
    0 ≤ computeExperienceMatch c r ∧ computeExperienceMatch c r ≤ 1 := by
  unfold computeExperienceMatch
  split
  · norm_num
  · rename_i h
    push_neg at h
    exact ⟨le_min (div_nonneg hc h.le) zero_le_one, min_le_right _ _⟩

theorem computeLocationMatch_bounds (c r : String) :
    0 ≤ computeLocationMatch c r ∧ computeLocationMatch c r ≤ 1 := by
  unfold computeLocationMatch
  split_ifs <;> norm_num

/-! ### Claim theorems -/

/-- **C1**: for every `ScoringInput`, `scoreCandidateForJob` returns
`finalScore = round4 (0.5·skillScore + 0.3·experienceScore +
0.2·locationScore)` and a confidence of `HIGH` when `finalScore ≥ 0.75`,
`MEDIUM` when `0.45 ≤ finalScore < 0.75`, `LOW` otherwise; on the worked
example (candidate {TypeScript, React} with 10 years in the required
location, against {TypeScript, React, AWS, Docker}, 5 years) it returns
skill 0.5, experience 1, location 1, final 0.75, confidence HIGH. -/
theorem scoring_formula_thresholds_and_worked_example :
    (∀ input : ScoringInput,
      (scoreCandidateForJob input).finalScore =
        round4 (0.5 * (computeSkillMatch input.candidateSkills input.jobRequiredSkills).score +
                0.3 * computeExperienceMatch input.candidateExperience input.jobRequiredExperience +
                0.2 * computeLocationMatch input.candidateLocation input.jobRequiredLocation) ∧
      (0.75 ≤ (scoreCandidateForJob input).finalScore →
        (scoreCandidateForJob input).confidence = Confidence.HIGH) ∧
      (0.45 ≤ (scoreCandidateForJob input).finalScore ∧
          (scoreCandidateForJob input).finalScore < 0.75 →
        (scoreCandidateForJob input).confidence = Confidence.MEDIUM) ∧
      ((scoreCandidateForJob input).finalScore < 0.45 →
        (scoreCandidateForJob input).confidence = Confidence.LOW)) ∧
    scoreCandidateForJob workedExampleInput =
      { skillMatchScore := 0.5, experienceMatchScore := 1, locationMatchScore := 1,
        finalScore := 0.75, confidence := Confidence.HIGH } := by
  constructor
  · intro input
    have hconf : (scoreCandidateForJob input).confidence
        = deriveConfidence ((scoreCandidateForJob input).finalScore) := rfl
    refine ⟨rfl, ?_, ?_, ?_⟩
    · intro h
      rw [hconf]
      unfold deriveConfidence
      rw [if_pos h]
    · rintro ⟨h1, h2⟩
      rw [hconf]
      unfold deriveConfidence
      rw [if_neg (by linarith), if_pos h1]
    · intro h
      rw [hconf]
      unfold deriveConfidence
      rw [if_neg (by linarith), if_neg (by linarith)]
  · have h1 : canonicalizeSkill "TypeScript" = "TypeScript" := by decide
    have h5 : normLocation "Bangalore" = "bangalore" := by decide
    have hf : (["TypeScript", "React", "AWS", "Docker"].filter (fun skill =>
        (["TypeScript", "React"].map canonicalizeSkill).contains (canonicalizeSkill skill))) =
        ["TypeScript", "React"] := by decide
    simp only [scoreCandidateForJob, computeSkillMatch, computeExperienceMatch,
      computeLocationMatch, workedExampleInput, deriveConfidence, round4, jsRound,
      WEIGHT_SKILL, WEIGHT_EXPERIENCE, WEIGHT_LOCATION,
      hf, h5, List.length_cons, List.length_nil]
    norm_num

/-- Witness for C1: the theorem applied to the worked example, whose final
score is exactly the 0.75 `HIGH` boundary. -/
theorem scoring_formula_thresholds_witness :
    (scoreCandidateForJob workedExampleInput).confidence = Confidence.HIGH := by
  have h := scoring_formula_thresholds_and_worked_example
  refine (h.1 workedExampleInput).2.1 ?_
  rw [h.2]

/-- Counterexample to **C4** as stated for arbitrary real inputs: with
`candidateExperience = -1` and `jobRequiredExperience = 1` the experience
score is `-1` and the final score is `-0.3`, both outside `[0, 1]` —
`computeExperienceMatch` has no lower clamp. -/
theorem scoring_scores_escape_unit_interval :
    (scoreCandidateForJob negativeExperienceInput).experienceMatchScore = -1 ∧
    (scoreCandidateForJob negativeExperienceInput).finalScore = -(3 : ℚ) / 10 ∧
    ¬ (0 ≤ (scoreCandidateForJob negativeExperienceInput).finalScore) := by
  have hf : (["AWS"].filter (fun skill =>
      (([] : List String).map canonicalizeSkill).contains (canonicalizeSkill skill))) =
      ([] : List String) := by decide
  have h5 : normLocation "Pune" = "pune" := by decide
  have h6 : normLocation "Delhi" = "delhi" := by decide
  have hne1 : ¬("Delhi" = "" ∨ "Pune" = "") := by decide
  have hne2 : ¬("pune" = "delhi") := by decide
  refine ⟨?_, ?_, ?_⟩ <;>
    · simp only [scoreCandidateForJob, computeSkillMatch, computeExperienceMatch,
        computeLocationMatch, negativeExperienceInput, round4, jsRound,
        WEIGHT_SKILL, WEIGHT_EXPERIENCE, WEIGHT_LOCATION,
        hf, h5, h6, List.length_cons, List.length_nil]
      norm_num [hne1, hne2]

/-- **C4** (amended): provided the candidate experience is non-negative —
which the extractor guarantees — every score returned by
`scoreCandidateForJob` lies in `[0, 1]`. -/
theorem scoring_scores_in_unit_interval (input : ScoringInput)
    (hexp : 0 ≤ input.candidateExperience) :
    (0 ≤ (scoreCandidateForJob input).skillMatchScore ∧
      (scoreCandidateForJob input).skillMatchScore ≤ 1) ∧
    (0 ≤ (scoreCandidateForJob input).experienceMatchScore ∧
      (scoreCandidateForJob input).experienceMatchScore ≤ 1) ∧
    (0 ≤ (scoreCandidateForJob input).locationMatchScore ∧
      (scoreCandidateForJob input).locationMatchScore ≤ 1) ∧
    (0 ≤ (scoreCandidateForJob input).finalScore ∧
      (scoreCandidateForJob input).finalScore ≤ 1) := by
  obtain ⟨hs0, hs1⟩ := computeSkillMatch_score_bounds input.candidateSkills input.jobRequiredSkills
  obtain ⟨he0, he1⟩ := computeExperienceMatch_bounds input.candidateExperience
    input.jobRequiredExperience hexp
  obtain ⟨hl0, hl1⟩ := computeLocationMatch_bounds input.candidateLocation
    input.jobRequiredLocation
  have hskill : (scoreCandidateForJob input).skillMatchScore
      = round4 (computeSkillMatch input.candidateSkills input.jobRequiredSkills).score := rfl
  have hexp2 : (scoreCandidateForJob input).experienceMatchScore
      = round4 (computeExperienceMatch input.candidateExperience input.jobRequiredExperience) := rfl
  have hloc : (scoreCandidateForJob input).locationMatchScore
      = round4 (computeLocationMatch input.candidateLocation input.jobRequiredLocation) := rfl
  have hfin : (scoreCandidateForJob input).finalScore
      = round4 (WEIGHT_SKILL * (computeSkillMatch input.candidateSkills input.jobRequiredSkills).score +
          WEIGHT_EXPERIENCE * computeExperienceMatch input.candidateExperience input.jobRequiredExperience +
          WEIGHT_LOCATION * computeLocationMatch input.candidateLocation input.jobRequiredLocation) := rfl
  have hw : WEIGHT_SKILL = 0.5 ∧ WEIGHT_EXPERIENCE = 0.3 ∧ WEIGHT_LOCATION = 0.2 := ⟨rfl, rfl, rfl⟩
  refine ⟨⟨?_, ?_⟩, ⟨?_, ?_⟩, ⟨?_, ?_⟩, ⟨?_, ?_⟩⟩
  · rw [hskill]; exact round4_nonneg _ hs0
  · rw [hskill]; exact round4_le_one _ hs1
  · rw [hexp2]; exact round4_nonneg _ he0
  · rw [hexp2]; exact round4_le_one _ he1
  · rw [hloc]; exact round4_nonneg _ hl0
  · rw [hloc]; exact round4_le_one _ hl1
  · rw [hfin]
    apply round4_nonneg
    rw [hw.1, hw.2.1, hw.2.2]
    nlinarith
  · rw [hfin]
    apply round4_le_one
    rw [hw.1, hw.2.1, hw.2.2]
    nlinarith

/-- Witness for C4 (amended): the bounds instantiated at the worked
example. -/
theorem scoring_scores_in_unit_interval_witness :
    0 ≤ (scoreCandidateForJob workedExampleInput).finalScore ∧
    (scoreCandidateForJob workedExampleInput).finalScore ≤ 1 := by
  exact (scoring_scores_in_unit_interval workedExampleInput
    (by norm_num [workedExampleInput])).2.2.2

/-- **C5**: the skill score counts the required skills whose canonical form
occurs among the canonicalized candidate skills, divided by the number of
required skills; an empty requirement scores 1, and an empty candidate list
against one required skill scores 0. -/
theorem computeSkillMatch_score_characterization :
    (∀ cand req : List String, (computeSkillMatch cand req).score =
      if req.length = 0 then 1
      else ((req.countP fun s => (cand.map canonicalizeSkill).contains (canonicalizeSkill s)) : ℚ)
        / (req.length : ℚ)) ∧
    (∀ cand : List String, (computeSkillMatch cand []).score = 1) ∧
    (∀ s : String, (computeSkillMatch [] [s]).score = 0) := by
  have hmain : ∀ cand req : List String, (computeSkillMatch cand req).score =
      if req.length = 0 then 1
      else ((req.countP fun s => (cand.map canonicalizeSkill).contains (canonicalizeSkill s)) : ℚ)
        / (req.length : ℚ) := by
    intro cand req
    unfold computeSkillMatch
    split
    · rfl
    · simp only [List.countP_eq_length_filter]
  refine ⟨hmain, fun cand => by rw [hmain]; rfl, fun s => ?_⟩
  rw [hmain]
  simp

/-- Counterexample to **C6** as stated: the title-cased fall-back is not a
fixed point of `canonicalizeSkill` — `canonicalizeSkill "vanilla  js"`
(two spaces) produces `"Vanilla Js"`, whose single-spaced lower-casing is an
alias-table key, so re-canonicalizing yields `"JavaScript"`. -/
theorem canonicalizeSkill_not_idempotent_on_fallback :
    canonicalizeSkill (canonicalizeSkill "vanilla  js") ≠ canonicalizeSkill "vanilla  js" ∧
    canonicalizeSkill "vanilla  js" = "Vanilla Js" ∧
    canonicalizeSkill "Vanilla Js" = "JavaScript" := by
  refine ⟨by decide, by decide, by decide⟩

/-- **C6** (amended): `canonicalizeSkill` is total by construction,
case/whitespace-insensitive on the specification example, and looks keys up
in the order: direct lower-cased key, then whitespace-stripped key, then
trailing-"s"-stripped key, then the title-cased rendering of the original
input.  Idempotence holds for every name the direct lower-cased lookup
resolves to itself — as the alias table's canonical display names do (e.g.
`"JavaScript"`, `"Node.js"`, `"Docker"`, `"TypeScript"`) — but not for every
title-cased fall-back output (see the counterexample). -/
theorem canonicalizeSkill_table_idempotent_and_lookup_order :
    (∀ v : String, SKILL_ALIAS_MAP.lookup (jsTrim (jsToLower v)) = some v →
      canonicalizeSkill v = v) ∧
    canonicalizeSkill "JavaScript" = "JavaScript" ∧
    canonicalizeSkill "Node.js" = "Node.js" ∧
    canonicalizeSkill "Docker" = "Docker" ∧
    canonicalizeSkill "Type Script" = "TypeScript" ∧
    canonicalizeSkill "TypeScript" = "TypeScript" ∧
    (∀ s v, SKILL_ALIAS_MAP.lookup (jsTrim (jsToLower s)) = some v →
      canonicalizeSkill s = v) ∧
    (∀ s v, SKILL_ALIAS_MAP.lookup (jsTrim (jsToLower s)) = none →
      stripAllWs (jsTrim (jsToLower s)) ≠ jsTrim (jsToLower s) →
      SKILL_ALIAS_MAP.lookup (stripAllWs (jsTrim (jsToLower s))) = some v →
      canonicalizeSkill s = v) ∧
    canonicalizeSkill "Dockers" = "Docker" ∧
    canonicalizeSkill "Quantum Widgets" = "Quantum Widgets" := by
  have hstage1 : ∀ s v, SKILL_ALIAS_MAP.lookup (jsTrim (jsToLower s)) = some v →
      canonicalizeSkill s = v := by
    intro s v h
    show (match SKILL_ALIAS_MAP.lookup (jsTrim (jsToLower s)) with
      | some v => v
      | none => canonicalizeSkillStage2 s (jsTrim (jsToLower s))) = v
    rw [h]
  have hstage2 : ∀ s v, SKILL_ALIAS_MAP.lookup (jsTrim (jsToLower s)) = none →
      stripAllWs (jsTrim (jsToLower s)) ≠ jsTrim (jsToLower s) →
      SKILL_ALIAS_MAP.lookup (stripAllWs (jsTrim (jsToLower s))) = some v →
      canonicalizeSkill s = v := by
    intro s v h1 h2 h3
    show (match SKILL_ALIAS_MAP.lookup (jsTrim (jsToLower s)) with
      | some v => v
      | none => canonicalizeSkillStage2 s (jsTrim (jsToLower s))) = v
    rw [h1]
    show (match (if stripAllWs (jsTrim (jsToLower s)) ≠ jsTrim (jsToLower s) then
        SKILL_ALIAS_MAP.lookup (stripAllWs (jsTrim (jsToLower s))) else none) with
      | some v => v
      | none => canonicalizeSkillStage3 s (jsTrim (jsToLower s))) = v
    rw [if_pos h2, h3]
  exact ⟨fun v h => hstage1 v v h, by decide, by decide, by decide, by decide, by decide,
    hstage1, hstage2, by decide, by decide⟩

/-- Witness for C6 (amended): the direct-lookup stage applied to `"JS"`. -/
theorem canonicalizeSkill_lookup_order_witness :
    canonicalizeSkill "JS" = "JavaScript" := by
  exact canonicalizeSkill_table_idempotent_and_lookup_order.2.2.2.2.2.2.1 "JS" "JavaScript"
    (by decide)

theorem tryExperiencePatterns_eq_findSome (l : List (String → Option ℚ)) (t : String) :
    tryExperiencePatterns l t = l.findSome? (fun p =>
      match p t with
      | some y => if 0 ≤ y ∧ y < 60 then some y else none
      | none => none) := by
  induction l with
  | nil => rfl
  | cons p rest ih =>
    rw [List.findSome?_cons]
    unfold tryExperiencePatterns
    cases hp : p t with
    | none => simp only [hp]; exact ih
    | some y =>
      simp only [hp]
      by_cases hy : 0 ≤ y ∧ y < 60
      · rw [if_pos hy, if_pos hy]
      · rw [if_neg hy, if_neg hy]; exact ih

theorem tryExperiencePatterns_append (l1 : List (String → Option ℚ)) (p : String → Option ℚ)
    (l2 : List (String → Option ℚ)) (t : String) (y : ℚ)
    (hmiss : ∀ q ∈ l1, match q t with
      | some z => ¬(0 ≤ z ∧ z < 60)
      | none => True)
    (hp : p t = some y) (hy0 : 0 ≤ y) (hy1 : y < 60) :
    tryExperiencePatterns (l1 ++ p :: l2) t = some y := by
  induction l1 with
  | nil =>
    rw [List.nil_append]
    unfold tryExperiencePatterns
    rw [hp]
    show (if 0 ≤ y ∧ y < 60 then some y else tryExperiencePatterns l2 t) = some y
    rw [if_pos ⟨hy0, hy1⟩]
  | cons q rest ih =>
    rw [List.cons_append]
    unfold tryExperiencePatterns
    have hq := hmiss q (List.mem_cons_self q rest)
    cases hqt : q t with
    | none =>
      exact ih fun r hr => hmiss r (List.mem_cons_of_mem q hr)
    | some z =>
      simp only [hqt] at hq
      show (if 0 ≤ z ∧ z < 60 then some z else tryExperiencePatterns (rest ++ p :: l2) t) = some y
      rw [if_neg hq]
      exact ih fun r hr => hmiss r (List.mem_cons_of_mem q hr)

theorem tryExperiencePatterns_range (l : List (String → Option ℚ)) (t : String) (y : ℚ)
    (h : tryExperiencePatterns l t = some y) : 0 ≤ y ∧ y < 60 := by
  induction l with
  | nil => simp [tryExperiencePatterns] at h
  | cons p rest ih =>
    unfold tryExperiencePatterns at h
    cases hp : p t with
    | none => simp only [hp] at h; exact ih h
    | some z =>
      simp only [hp] at h
      by_cases hz : 0 ≤ z ∧ z < 60
      · rw [if_pos hz] at h
        obtain rfl := Option.some.inj h
        exact hz
      · rw [if_neg hz] at h; exact ih h

theorem calculateExperienceFromDates_nonneg (nowYear nowMonth : Int) (text : String) :
    0 ≤ calculateExperienceFromDates nowYear nowMonth text := by
  unfold calculateExperienceFromDates
  have hfold : ∀ (caps : List DateRangeCapture) (acc : Int), 0 ≤ acc →
      0 ≤ caps.foldl (fun acc cap =>
        let months := monthsOfCapture nowYear nowMonth cap
        if 0 < months ∧ months < 600 then acc + months else acc) acc := by
    intro caps
    induction caps with
    | nil => intro acc h; simpa using h
    | cons c cs ih =>
      intro acc h
      rw [List.foldl_cons]
      apply ih
      by_cases hm : 0 < monthsOfCapture nowYear nowMonth c ∧ monthsOfCapture nowYear nowMonth c < 600
      · simp only [if_pos hm]
        omega
      · simp only [if_neg hm]
        exact h
  have htotal : (0 : Int) ≤ (scanDateRanges text.data).foldl
      (fun acc cap =>
        let months := monthsOfCapture nowYear nowMonth cap
        if 0 < months ∧ months < 600 then acc + months else acc) 0 :=
    hfold _ 0 le_rfl
  have hq : (0 : ℚ) ≤ (((scanDateRanges text.data).foldl
      (fun acc cap =>
        let months := monthsOfCapture nowYear nowMonth cap
        if 0 < months ∧ months < 600 then acc + months else acc) 0 : Int) : ℚ) / 12 * 10 := by
    have : (0 : ℚ) ≤ (((scanDateRanges text.data).foldl
        (fun acc cap =>
          let months := monthsOfCapture nowYear nowMonth cap
          if 0 < months ∧ months < 600 then acc + months else acc) 0 : Int) : ℚ) := by
      exact_mod_cast htotal
    positivity
  unfold jsRound
  have hfloor : (0 : Int) ≤ ⌊(((scanDateRanges text.data).foldl
      (fun acc cap =>
        let months := monthsOfCapture nowYear nowMonth cap
        if 0 < months ∧ months < 600 then acc + months else acc) 0 : Int) : ℚ) / 12 * 10 + 1 / 2⌋ :=
    Int.floor_nonneg.mpr (by linarith)
  have : (0 : ℚ) ≤ (⌊(((scanDateRanges text.data).foldl
      (fun acc cap =>
        let months := monthsOfCapture nowYear nowMonth cap
        if 0 < months ∧ months < 600 then acc + months else acc) 0 : Int) : ℚ) / 12 * 10 + 1 / 2⌋ : ℚ) := by
    exact_mod_cast hfloor
  linarith

/-- **C7**: experience inference first tries the explicit numeric patterns
in their listed order — the first whose parsed value lies in `[0, 60)` wins —
then falls back to the summed date ranges when their rounded total is
positive, and otherwise returns 0 years with `matched = false`. -/
theorem extractExperience_priority_order (nowYear nowMonth : Int) (rawText textLower : String) :
    (extractExperience nowYear nowMonth rawText textLower =
      match EXPERIENCE_PATTERNS.findSome? (fun p =>
        match p textLower with
        | some y => if 0 ≤ y ∧ y < 60 then some y else none
        | none => none) with
      | some y => { years := y, matched := true }
      | none =>
        if 0 < calculateExperienceFromDates nowYear nowMonth rawText then
          { years := calculateExperienceFromDates nowYear nowMonth rawText, matched := true }
        else { years := 0, matched := false }) ∧
    (∀ (l1 : List (String → Option ℚ)) (p : String → Option ℚ)
        (l2 : List (String → Option ℚ)) (y : ℚ), EXPERIENCE_PATTERNS = l1 ++ p :: l2 →
      (∀ q ∈ l1, match q textLower with
        | some z => ¬(0 ≤ z ∧ z < 60)
        | none => True) →
      p textLower = some y → 0 ≤ y → y < 60 →
      extractExperience nowYear nowMonth rawText textLower = { years := y, matched := true }) := by
  constructor
  · unfold extractExperience
    rw [tryExperiencePatterns_eq_findSome]
  · intro l1 p l2 y hdecomp hmiss hp hy0 hy1
    unfold extractExperience
    rw [hdecomp, tryExperiencePatterns_append l1 p l2 textLower y hmiss hp hy0 hy1]

/-- Witness for C7: the first pattern matches "8+ years of experience" with
the in-range value 8; the explicit branch wins with `matched = true`. -/
theorem extractExperience_priority_witness :
    extractExperience 2026 9 "" "8+ years of experience" =
      { years := ((8 : ℕ) : ℚ), matched := true } := by
  refine (extractExperience_priority_order 2026 9 "" "8+ years of experience").2
    [] (fun s => scanLeftmost expPattern1At s.data) _ ((8 : ℕ) : ℚ) rfl ?_ rfl ?_ ?_
  · intro q hq
    simp at hq
  · exact Nat.cast_nonneg 8
  · norm_num

/-- **C10**: the experience value produced by the extractor is never
negative: an explicit pattern is accepted only with a value in `[0, 60)`,
the date-range fallback sums only strictly positive month spans, and the
default is 0. -/
theorem extractExperience_nonneg (nowYear nowMonth : Int) (rawText textLower : String) :
    0 ≤ (extractExperience nowYear nowMonth rawText textLower).years ∧
    0 ≤ calculateExperienceFromDates nowYear nowMonth rawText := by
  refine ⟨?_, calculateExperienceFromDates_nonneg nowYear nowMonth rawText⟩
  unfold extractExperience
  cases htry : tryExperiencePatterns EXPERIENCE_PATTERNS textLower with
  | some y =>
    simp only [htry]
    exact (tryExperiencePatterns_range _ _ _ htry).1
  | none =>
    simp only [htry]
    show 0 ≤ (if 0 < calculateExperienceFromDates nowYear nowMonth rawText then
      ({ years := calculateExperienceFromDates nowYear nowMonth rawText, matched := true } : ExperienceResult)
      else { years := 0, matched := false }).years
    split_ifs with h
    · exact le_of_lt h
    · exact le_refl 0

theorem firstMatchingEducation_append (l1 : List ((String → Bool) × String))
    (test : String → Bool) (label : String) (l2 : List ((String → Bool) × String))
    (t : String) (hmiss : ∀ q ∈ l1, q.1 t = false) (htest : test t = true) :
    firstMatchingEducation (l1 ++ (test, label) :: l2) t = some label := by
  induction l1 with
  | nil =>
    rw [List.nil_append]
    unfold firstMatchingEducation
    rw [if_pos htest]
  | cons q rest ih =>
    obtain ⟨qt, ql⟩ := q
    rw [List.cons_append]
    unfold firstMatchingEducation
    have hq : qt t = false := hmiss (qt, ql) (List.mem_cons_self _ _)
    rw [if_neg (by simp [hq])]
    exact ih fun r hr => hmiss r (List.mem_cons_of_mem _ hr)

theorem firstMatchingEducation_none (l : List ((String → Bool) × String)) (t : String)
    (h : ∀ q ∈ l, q.1 t = false) : firstMatchingEducation l t = none := by
  induction l with
  | nil => rfl
  | cons q rest ih =>
    obtain ⟨qt, ql⟩ := q
    unfold firstMatchingEducation
    have hq : qt t = false := h (qt, ql) (List.mem_cons_self _ _)
    rw [if_neg (by simp [hq])]
    exact ih fun r hr => h r (List.mem_cons_of_mem _ hr)

/-- **C8**: education inference returns the label of the first pattern, in
the fixed rank order PhD > MBA > Master > Bachelor > Associate >
Diploma/Certificate > High School, that tests true anywhere in the text —
independent of where in the text the match occurs, as the worked example
with "bachelor" appearing before "phd" shows — and "Not specified" when no
pattern matches. -/
theorem extractEducation_rank_priority :
    (∀ textLower : String,
      (∀ (l1 : List ((String → Bool) × String)) (test : String → Bool) (label : String)
          (l2 : List ((String → Bool) × String)),
        EDUCATION_PATTERNS = l1 ++ (test, label) :: l2 →
        (∀ q ∈ l1, q.1 textLower = false) → test textLower = true →
        extractEducation textLower = { level := label, matched := true }) ∧
      ((∀ q ∈ EDUCATION_PATTERNS, q.1 textLower = false) →
        extractEducation textLower = { level := "Not specified", matched := false })) ∧
    extractEducation "bachelor of science in physics, then a phd in 2019" =
      { level := "PhD", matched := true } := by
  refine ⟨fun textLower => ⟨?_, ?_⟩, by decide⟩
  · intro l1 test label l2 hdecomp hmiss htest
    unfold extractEducation
    rw [hdecomp, firstMatchingEducation_append l1 test label l2 textLower hmiss htest]
  · intro h
    unfold extractEducation
    rw [firstMatchingEducation_none EDUCATION_PATTERNS textLower h]

/-- Witness for C8: the PhD pattern (rank 0, empty prefix of misses) applied
to a text containing "phd". -/
theorem extractEducation_rank_priority_witness :
    extractEducation "phd from mit" = { level := "PhD", matched := true } := by
  refine (extractEducation_rank_priority.1 "phd from mit").1
    [] (eduTest eduPhdAt) "PhD" _ rfl ?_ (by decide)
  intro q hq
  simp at hq

/-- **C9**: `parseResume` fails with the unsupported-format error on every
declared content type other than PDF and plain text; every successful result
carries trimmed text; and plain-text input parses with page count 1. -/
theorem parseResume_dispatch_and_trim (pdfGetText : List Nat → Except String PdfLibResult)
    (decodeUtf8 : List Nat → String) (buffer : List Nat) (mimeType filename : String) :
    (mimeType ≠ PDF_MIME → mimeType ≠ TXT_MIME →
      parseResume pdfGetText decodeUtf8 buffer mimeType filename =
        Except.error (ResumeParseError.unsupportedFormat mimeType)) ∧
    (∀ r, parseResume pdfGetText decodeUtf8 buffer mimeType filename = Except.ok r →
      jsTrim r.rawText = r.rawText) ∧
    (mimeType = TXT_MIME →
      parseResume pdfGetText decodeUtf8 buffer mimeType filename =
        Except.ok (parsePlainText decodeUtf8 buffer mimeType) ∧
      (parsePlainText decodeUtf8 buffer mimeType).pageCount = 1) := by
  refine ⟨?_, ?_, ?_⟩
  · intro h1 h2
    unfold parseResume
    rw [if_neg h1, if_neg h2]
  · intro r hr
    unfold parseResume at hr
    by_cases h1 : mimeType = PDF_MIME
    · rw [if_pos h1] at hr
      unfold parsePdf at hr
      cases hlib : pdfGetText buffer with
      | ok libr =>
        rw [hlib] at hr
        obtain rfl := Except.ok.inj hr
        cases ht : libr.text with
        | some t =>
          simp only [ht, Option.map_some, Option.getD_some]
          exact jsTrim_idempotent t
        | none =>
          simp only [ht, Option.map_none, Option.getD_none]
          decide
      | error msg =>
        rw [hlib] at hr
        cases hr
    · rw [if_neg h1] at hr
      by_cases h2 : mimeType = TXT_MIME
      · rw [if_pos h2] at hr
        obtain rfl := Except.ok.inj hr
        exact jsTrim_idempotent _
      · rw [if_neg h2] at hr
        cases hr
  · intro h2
    refine ⟨?_, rfl⟩
    unfold parseResume
    rw [if_neg (by rw [h2]; decide), if_pos h2]

/-- Witness for C9: an image MIME type is rejected as unsupported, and a
plain-text parse reports one page. -/
theorem parseResume_dispatch_witness :
    parseResume noPdfLib fixedDecode [] "image/png" "scan.png" =
      Except.error (ResumeParseError.unsupportedFormat "image/png") ∧
    (parsePlainText fixedDecode [] TXT_MIME).pageCount = 1 := by
  constructor
  · exact (parseResume_dispatch_and_trim noPdfLib fixedDecode [] "image/png" "scan.png").1
      (by decide) (by decide)
  · exact ((parseResume_dispatch_and_trim noPdfLib fixedDecode [] TXT_MIME "resume.txt").2.2
      rfl).2

theorem insertAllowed_id_fresh (db : HiringProfileDb) (r : HiringProfileRecord)
    (h : insertAllowed db r = true) : ∀ s ∈ db, (s.id == r.id) = false := by
  intro s hs
  unfold insertAllowed at h
  rw [List.all_eq_true] at h
  have h1 := h ["id"] (by simp [hiringProfileUniqueConstraints])
  rw [List.all_eq_true] at h1
  have h2 := h1 s hs
  simp only [List.all_cons, List.all_nil, Bool.and_true, columnEq, if_pos rfl,
    Bool.not_eq_true'] at h2
  have hne : r.id ≠ s.id := by
    intro he
    rw [he] at h2
    simp at h2
  exact beq_eq_false_iff_ne.mpr (fun he => hne he.symm)

theorem dbUpdateScores_of_id_fresh (db : HiringProfileDb) (id : Nat) (o : ScoringOutput)
    (h : ∀ r ∈ db, (r.id == id) = false) : dbUpdateScores db id o = db := by
  induction db with
  | nil => rfl
  | cons r rest ih =>
    have hr := h r (List.mem_cons_self _ _)
    unfold dbUpdateScores
    rw [List.map_cons]
    rw [if_neg (by simp [hr])]
    have htail := ih fun s hs => h s (List.mem_cons_of_mem _ hs)
    unfold dbUpdateScores at htail
    rw [htail]

/-- A record is fully scored when all five score columns are populated. -/
def fullyScored (r : HiringProfileRecord) : Prop :=
  r.skillMatchScore.isSome = true ∧ r.experienceMatchScore.isSome = true ∧
  r.locationMatchScore.isSome = true ∧ r.finalScore.isSome = true ∧
  r.confidence.isSome = true

theorem submitTransactionBody_cases
    (extractFeatures : String → List String → ExtractedFeatures)
    (openings : List JobOpening) (tId uId oId : String)
    (file : UploadedFile) (parsed : ParsedResume)
    (newId timestamp : Nat) (injectFailure : Bool) (db : HiringProfileDb) :
    (∃ e, submitTransactionBody extractFeatures openings tId uId oId file parsed
        newId timestamp injectFailure db = Except.error e) ∨
    (injectFailure = false ∧ ∃ record,
      submitTransactionBody extractFeatures openings tId uId oId file parsed
        newId timestamp injectFailure db = Except.ok (db ++ [record], record) ∧
      fullyScored record) := by
  unfold submitTransactionBody
  split
  · exact Or.inl ⟨_, rfl⟩
  · rename_i opening hfind
    split
    · exact Or.inl ⟨_, rfl⟩
    · split
      · split
        · exact Or.inl ⟨_, rfl⟩
        · rename_i hten hall hinj
          refine Or.inr ⟨by simpa using hinj,
            finalizeRecord
              (mkProfile (extractFeatures parsed.rawText opening.requiredSkills)
                opening tId uId oId file parsed newId timestamp)
              (scoreCandidateForJob (mkScoringInput
                (extractFeatures parsed.rawText opening.requiredSkills) opening)),
            ?_, ⟨rfl, rfl, rfl, rfl, rfl⟩⟩
          have hids := insertAllowed_id_fresh db _ hall
          have hmap : dbUpdateScores
              (db ++ [mkProfile (extractFeatures parsed.rawText opening.requiredSkills)
                opening tId uId oId file parsed newId timestamp])
              (mkProfile (extractFeatures parsed.rawText opening.requiredSkills)
                opening tId uId oId file parsed newId timestamp).id
              (scoreCandidateForJob (mkScoringInput
                (extractFeatures parsed.rawText opening.requiredSkills) opening)) =
              db ++ [finalizeRecord
                (mkProfile (extractFeatures parsed.rawText opening.requiredSkills)
                  opening tId uId oId file parsed newId timestamp)
                (scoreCandidateForJob (mkScoringInput
                  (extractFeatures parsed.rawText opening.requiredSkills) opening))] := by
            unfold dbUpdateScores
            rw [List.map_append]
            have hdb := dbUpdateScores_of_id_fresh db
              (mkProfile (extractFeatures parsed.rawText opening.requiredSkills)
                opening tId uId oId file parsed newId timestamp).id
              (scoreCandidateForJob (mkScoringInput
                (extractFeatures parsed.rawText opening.requiredSkills) opening)) hids
            unfold dbUpdateScores at hdb
            rw [hdb]
            simp
          rw [hmap]
      · exact Or.inl ⟨_, rfl⟩

/-- **C3**: the pipeline's persistence is atomic.  For every extractor, PDF
oracle, decoder, opening store and initial database: if the injected failure
between the `create` and the score-finalizing `update` fires, the visible
database is unchanged; and in general every run either leaves the database
exactly as it was (all failure paths: unsupported format, empty extraction,
opening not found, rejected insert, injected failure) or appends exactly one
fully-scored record — no partially-scored row is ever visible. -/
theorem submitHiringProfile_atomic
    (extractFeatures : String → List String → ExtractedFeatures)
    (pdfGetText : List Nat → Except String PdfLibResult)
    (decodeUtf8 : List Nat → String)
    (openings : List JobOpening)
    (tenantId userId openingId : Option String) (file : Option UploadedFile)
    (newId timestamp : Nat) (injectFailure : Bool) (db : HiringProfileDb) :
    (injectFailure = true →
      (submitHiringProfile extractFeatures pdfGetText decodeUtf8 openings
        tenantId userId openingId file newId timestamp injectFailure db).1 = db) ∧
    (((submitHiringProfile extractFeatures pdfGetText decodeUtf8 openings
        tenantId userId openingId file newId timestamp injectFailure db).1 = db ∧
      (∀ r, (submitHiringProfile extractFeatures pdfGetText decodeUtf8 openings
        tenantId userId openingId file newId timestamp injectFailure db).2 ≠
          SubmitResponse.created r)) ∨
     (∃ record,
      (submitHiringProfile extractFeatures pdfGetText decodeUtf8 openings
        tenantId userId openingId file newId timestamp injectFailure db).1 = db ++ [record] ∧
      fullyScored record ∧
      (submitHiringProfile extractFeatures pdfGetText decodeUtf8 openings
        tenantId userId openingId file newId timestamp injectFailure db).2 =
        SubmitResponse.created record ∧
      injectFailure = false)) := by
  have hmain : ((submitHiringProfile extractFeatures pdfGetText decodeUtf8 openings
        tenantId userId openingId file newId timestamp injectFailure db).1 = db ∧
      (∀ r, (submitHiringProfile extractFeatures pdfGetText decodeUtf8 openings
        tenantId userId openingId file newId timestamp injectFailure db).2 ≠
          SubmitResponse.created r)) ∨
     (∃ record,
      (submitHiringProfile extractFeatures pdfGetText decodeUtf8 openings
        tenantId userId openingId file newId timestamp injectFailure db).1 = db ++ [record] ∧
      fullyScored record ∧
      (submitHiringProfile extractFeatures pdfGetText decodeUtf8 openings
        tenantId userId openingId file newId timestamp injectFailure db).2 =
        SubmitResponse.created record ∧
      injectFailure = false) := by
    unfold submitHiringProfile
    cases tenantId with
    | none => exact Or.inl ⟨rfl, fun r h => SubmitResponse.noConfusion h⟩
    | some tId =>
    cases userId with
    | none => exact Or.inl ⟨rfl, fun r h => SubmitResponse.noConfusion h⟩
    | some uId =>
    cases openingId with
    | none => exact Or.inl ⟨rfl, fun r h => SubmitResponse.noConfusion h⟩
    | some oId =>
    cases file with
    | none => exact Or.inl ⟨rfl, fun r h => SubmitResponse.noConfusion h⟩
    | some f =>
    cases hfind : findFirstProfile f.originalname oId uId tId db with
    | some existing =>
      simp only [hfind]
      exact Or.inl ⟨trivial, fun r h => by simp at h⟩
    | none =>
    simp only [hfind]
    unfold submitAfterCheck
    cases hparse : parseResume pdfGetText decodeUtf8 f.buffer f.mimetype f.originalname with
    | error e =>
      simp only [hparse]
      exact Or.inl ⟨trivial, fun r h => by simp at h⟩
    | ok parsed =>
    simp only [hparse]
    by_cases hlen : parsed.rawText.length = 0
    · rw [if_pos hlen]
      exact Or.inl ⟨rfl, fun r h => SubmitResponse.noConfusion h⟩
    · rw [if_neg hlen]
      unfold runTransaction
      rcases submitTransactionBody_cases extractFeatures openings tId uId oId f parsed
          newId timestamp injectFailure db with ⟨e, he⟩ | ⟨hinj, record, hok, hfull⟩
      · rw [he]
        cases e <;> exact Or.inl ⟨rfl, fun r h => SubmitResponse.noConfusion h⟩
      · rw [hok]
        exact Or.inr ⟨record, rfl, hfull, rfl, hinj⟩
  refine ⟨?_, hmain⟩
  intro hinj
  rcases hmain with ⟨h1, _⟩ | ⟨record, _, _, _, hfalse⟩
  · exact h1
  · rw [hinj] at hfalse
    cases hfalse

/-- Witness for C3: a concrete run with the failure injected between
`create` and `update` leaves the database empty. -/
theorem submitHiringProfile_atomic_witness : c3Injected.1 = ([] : HiringProfileDb) := by
  exact (submitHiringProfile_atomic trivialExtractor noPdfLib fixedDecode [c2Opening]
    (some "t1") (some "u1") (some "o1") (some c2File) 1 100 true []).1 rfl

/-- **C2** (code defect): the migrations declare no uniqueness constraint on
the idempotency key (filename, opening, user, tenant) — only the primary key
on `id` — so two concurrent submissions that both pass the `findFirst`
existence check against the same initial state commit two rows with the same
key.  Evaluated here at a concrete interleaving: both checks read the empty
database, submission A commits, submission B (already past its check)
commits as well; the store accepts both inserts and two rows with the key
remain. -/
theorem duplicate_rows_under_concurrent_submissions :
    findFirstProfile "resume.txt" "o1" "u1" "t1" ([] : HiringProfileDb) = none ∧
    c2Phase1.1.length = 1 ∧
    c2Phase2.1.length = 2 ∧
    countKey "resume.txt" "o1" "u1" "t1" c2Phase2.1 = 2 ∧
    hiringProfileUniqueConstraints.contains idempotencyKeyColumns = false := by
  exact ⟨by decide, by decide, by decide, by decide, by decide⟩

end Zelosify
